import Mathlib

/-!
Shallow embedding of `src/uwsm/dbus.py` (class `DbusInteractions`).

The Python class keeps a class-level (shared) nested dict
`dbus_objects = {"system": {}, "session": {}}` of lazily created bus
handles, remote objects and interface wrappers.  We model:

* opaque library handles (`dbus.SystemBus()`, `bus.get_object(...)`,
  `dbus.Interface(...)`) as `Nat` ids allocated from a fresh counter, so
  that Python reference identity becomes id equality;
* the shared cache as a structure with one `Option` slot per dict key
  (plus an association list for the nested per-unit dict, in Python dict
  insertion order);
* every call into the dbus library as an `Event` appended to a trace,
  so that "how many create / remote operations happened" is observable;
* remote method calls through an `Oracle` that may return a value or a
  fault; faults are threaded with `Except`, matching Python exceptions.
-/

namespace Uwsm

inductive Level where
  | system
  | session
deriving DecidableEq, Repr

def Level.other : Level → Level
  | .system => .session
  | .session => .system

/-- dbus values passed to / returned from remote calls. -/
inductive DVal where
  | str : String → DVal
  | list : List DVal → DVal
  | dict : List (String × String) → DVal
deriving Repr

/-- Calls into the dbus library: bus connection, `bus.get_object`,
`dbus.Interface` wrapping, and remote method calls. -/
inductive Event where
  | connectBus : Level → Event
  | getObject : Nat → String → DVal → Event
  | wrapInterface : Nat → String → Event
  | methodCall : Nat → String → List DVal → Event
deriving Repr

/-- One per-level sub-dict of `DbusInteractions.dbus_objects`: one slot per
string key the Python code ever uses. -/
structure LevelCache where
  bus : Option Nat
  systemd : Option Nat
  systemd_manager : Option Nat
  systemd_properties : Option Nat
  unit_properties : Option (List (String × Nat))
  dbus : Option Nat
  dbus_interface : Option Nat
deriving Repr

def emptyLC : LevelCache := ⟨none, none, none, none, none, none, none⟩

/-- The class-level `dbus_objects = {"system": {}, "session": {}}`. -/
structure Cache where
  system : LevelCache
  session : LevelCache
deriving Repr

def Cache.get (c : Cache) : Level → LevelCache
  | .system => c.system
  | .session => c.session

def Cache.set (c : Cache) : Level → LevelCache → Cache
  | .system, lc => { c with system := lc }
  | .session, lc => { c with session := lc }

/-- Program state: the shared cache, the fresh-handle counter, and the
chronological trace of dbus library operations. -/
structure World where
  cache : Cache
  counter : Nat
  trace : List Event
deriving Repr

def World.setLC (w : World) (lvl : Level) (lc : LevelCache) : World :=
  { w with cache := w.cache.set lvl lc }

def World.emit (w : World) (e : Event) : World :=
  { w with trace := w.trace ++ [e] }

/-- Allocate a fresh handle for a library-side create operation,
recording the operation in the trace. -/
def World.alloc (w : World) (e : Event) : Nat × World :=
  (w.counter, { w with counter := w.counter + 1, trace := w.trace ++ [e] })

/-- Behaviour of the remote side: given target handle, method name and
arguments, return a value or a fault. -/
def Oracle : Type := Nat → String → List DVal → Except String DVal

/-- A remote method call: recorded in the trace, result from the oracle.
A fault raised by the oracle propagates as `Except.error`. -/
def callOp (oracle : Oracle) (target : Nat) (method : String)
    (args : List DVal) (w : World) : Except String (DVal × World) :=
  let w1 := w.emit (.methodCall target method args)
  match oracle target method args with
  | .ok v => .ok (v, w1)
  | .error e => .error e

/-- `DbusInteractions.__init__`: validates `dbus_level`, then creates and
caches the bus connection for that level if absent.  Returns the level of
the constructed instance together with the updated state. -/
def DbusInteractions_init (dbus_level : String) (w : World) :
    Except String (Level × World) :=
  if dbus_level = "system" ∨ dbus_level = "session" then
    let lvl : Level := if dbus_level = "system" then .system else .session
    if (w.cache.get lvl).bus = none then
      let p := w.alloc (.connectBus lvl)
      .ok (lvl, p.2.setLC lvl { p.2.cache.get lvl with bus := some p.1 })
    else
      .ok (lvl, w)
  else
    .error ("dbus_level can be system or session, got " ++ dbus_level)

/-- `add_systemd`: caches the `/org/freedesktop/systemd1` object. -/
def add_systemd (lvl : Level) (w : World) : World :=
  if (w.cache.get lvl).systemd = none then
    let b := ((w.cache.get lvl).bus).getD 0
    let p := w.alloc
      (.getObject b "org.freedesktop.systemd1" (.str "/org/freedesktop/systemd1"))
    p.2.setLC lvl { p.2.cache.get lvl with systemd := some p.1 }
  else w

/-- `add_systemd_manager`: caches the systemd Manager method interface. -/
def add_systemd_manager (lvl : Level) (w : World) : World :=
  let w1 := add_systemd lvl w
  if (w1.cache.get lvl).systemd_manager = none then
    let obj := ((w1.cache.get lvl).systemd).getD 0
    let p := w1.alloc (.wrapInterface obj "org.freedesktop.systemd1.Manager")
    p.2.setLC lvl { p.2.cache.get lvl with systemd_manager := some p.1 }
  else w1

/-- `add_systemd_properties`: caches the manager properties interface. -/
def add_systemd_properties (lvl : Level) (w : World) : World :=
  let w1 := add_systemd lvl w
  if (w1.cache.get lvl).systemd_properties = none then
    let obj := ((w1.cache.get lvl).systemd).getD 0
    let p := w1.alloc (.wrapInterface obj "org.freedesktop.DBus.Properties")
    p.2.setLC lvl { p.2.cache.get lvl with systemd_properties := some p.1 }
  else w1

/-- Lookup in the nested `unit_properties` dict. -/
def lookupUnit (lc : LevelCache) (unit_id : String) : Option Nat :=
  (lc.unit_properties.getD []).lookup unit_id

/-- `add_systemd_unit_properties`: ensures the manager interface, then
unconditionally resolves `unit_id` via a remote `GetUnit` call and
`bus.get_object`, then caches the per-unit properties interface if the
`unit_id` key is absent from the nested dict. -/
def add_systemd_unit_properties (lvl : Level) (oracle : Oracle)
    (unit_id : String) (w : World) : Except String World :=
  let w1 := add_systemd_manager lvl w
  let mgr := ((w1.cache.get lvl).systemd_manager).getD 0
  match callOp oracle mgr "GetUnit" [.str unit_id] w1 with
  | .error e => .error e
  | .ok (pathv, w2) =>
    let b := ((w2.cache.get lvl).bus).getD 0
    let p := w2.alloc (.getObject b "org.freedesktop.systemd1" pathv)
    let lc := p.2.cache.get lvl
    let w4 := p.2.setLC lvl
      (if lc.unit_properties = none then { lc with unit_properties := some [] } else lc)
    if lookupUnit (w4.cache.get lvl) unit_id = none then
      let q := w4.alloc (.wrapInterface p.1 "org.freedesktop.DBus.Properties")
      let lc5 := q.2.cache.get lvl
      let ups := (lc5.unit_properties.getD []) ++ [(unit_id, q.1)]
      .ok (q.2.setLC lvl { lc5 with unit_properties := some ups })
    else
      .ok w4

/-- `add_dbus`: caches the `/org/freedesktop/DBus` object. -/
def add_dbus (lvl : Level) (w : World) : World :=
  if (w.cache.get lvl).dbus = none then
    let b := ((w.cache.get lvl).bus).getD 0
    let p := w.alloc (.getObject b "org.freedesktop.DBus" (.str "/org/freedesktop/DBus"))
    p.2.setLC lvl { p.2.cache.get lvl with dbus := some p.1 }
  else w

/-- `add_dbus_interface`: caches the `org.freedesktop.DBus` interface. -/
def add_dbus_interface (lvl : Level) (w : World) : World :=
  let w1 := add_dbus lvl w
  if (w1.cache.get lvl).dbus_interface = none then
    let obj := ((w1.cache.get lvl).dbus).getD 0
    let p := w1.alloc (.wrapInterface obj "org.freedesktop.DBus")
    p.2.setLC lvl { p.2.cache.get lvl with dbus_interface := some p.1 }
  else w1

/-- `get_unit_property`: ensures the per-unit properties interface, then
calls remote `Get` on it. -/
def get_unit_property (lvl : Level) (oracle : Oracle)
    (unit_id unit_property : String) (w : World) : Except String (DVal × World) :=
  match add_systemd_unit_properties lvl oracle unit_id w with
  | .error e => .error e
  | .ok w1 =>
    let h := (lookupUnit (w1.cache.get lvl) unit_id).getD 0
    callOp oracle h "Get"
      [.str "org.freedesktop.systemd1.Unit", .str unit_property] w1

/-- `reload_systemd`: remote `Reload` on the manager interface. -/
def reload_systemd (lvl : Level) (oracle : Oracle) (w : World) :
    Except String (DVal × World) :=
  let w1 := add_systemd_manager lvl w
  callOp oracle (((w1.cache.get lvl).systemd_manager).getD 0) "Reload" [] w1

/-- `list_systemd_jobs`: remote `ListJobs` on the manager interface. -/
def list_systemd_jobs (lvl : Level) (oracle : Oracle) (w : World) :
    Except String (DVal × World) :=
  let w1 := add_systemd_manager lvl w
  callOp oracle (((w1.cache.get lvl).systemd_manager).getD 0) "ListJobs" [] w1

/-- `set_dbus_vars`: remote `UpdateActivationEnvironment` with the vars
dict (modelled as an insertion-ordered association list). -/
def set_dbus_vars (lvl : Level) (oracle : Oracle)
    (vars_dict : List (String × String)) (w : World) : Except String World :=
  let w1 := add_dbus_interface lvl w
  (callOp oracle (((w1.cache.get lvl).dbus_interface).getD 0)
    "UpdateActivationEnvironment" [.dict vars_dict] w1).map (fun r => r.2)

/-- `set_systemd_vars`: builds `NAME=value` assignment strings in dict
iteration order and issues one remote `SetEnvironment` call. -/
def set_systemd_vars (lvl : Level) (oracle : Oracle)
    (vars_dict : List (String × String)) (w : World) : Except String World :=
  let w1 := add_systemd_manager lvl w
  let assignments := vars_dict.map (fun p => p.1 ++ "=" ++ p.2)
  (callOp oracle (((w1.cache.get lvl).systemd_manager).getD 0)
    "SetEnvironment" [.list (assignments.map .str)] w1).map (fun r => r.2)

/-- `unset_systemd_vars`: remote `UnsetEnvironment` with the name list. -/
def unset_systemd_vars (lvl : Level) (oracle : Oracle)
    (vars_list : List String) (w : World) : Except String World :=
  let w1 := add_systemd_manager lvl w
  (callOp oracle (((w1.cache.get lvl).systemd_manager).getD 0)
    "UnsetEnvironment" [.list (vars_list.map .str)] w1).map (fun r => r.2)

/-- Python `s.split("=", maxsplit=1)` on the character list: split at the
FIRST `=`; `none` when there is no `=` (the 2-tuple unpacking in the
source would raise `ValueError` there). -/
def splitFirstEq : List Char → Option (List Char × List Char)
  | [] => none
  | c :: rest =>
    if c = '=' then some ([], rest)
    else match splitFirstEq rest with
      | none => none
      | some p => some (c :: p.1, p.2)

/-- `var, value = str(assignment).split("=", maxsplit=1)`. -/
def split_assignment (s : String) : Except String (String × String) :=
  match splitFirstEq s.data with
  | none => .error "not enough values to unpack"
  | some p => .ok (String.mk p.1, String.mk p.2)

/-- Python dict `env.update({k: v})`: overwrite in place if the key
exists, else append. -/
def dictUpdate (env : List (String × String)) (k v : String) :
    List (String × String) :=
  if env.any (fun p => p.1 == k) then
    env.map (fun p => if p.1 == k then (k, v) else p)
  else env ++ [(k, v)]

/-- The parse loop of `get_systemd_vars`. -/
def parseEnv (env : List (String × String)) :
    List String → Except String (List (String × String))
  | [] => .ok env
  | a :: rest =>
    match split_assignment a with
    | .error e => .error e
    | .ok kv => parseEnv (dictUpdate env kv.1 kv.2) rest

def DVal.asStr : DVal → String
  | .str s => s
  | _ => ""

/-- The returned `Environment` property is an array of assignment
strings; `get_systemd_vars` iterates it applying `str`. -/
def DVal.toStrList : DVal → List String
  | .list l => l.map DVal.asStr
  | _ => []

/-- `get_systemd_vars`: reads the manager `Environment` property and
parses the assignment strings into a dict. -/
def get_systemd_vars (lvl : Level) (oracle : Oracle) (w : World) :
    Except String (List (String × String) × World) :=
  let w1 := add_systemd_properties lvl w
  match callOp oracle (((w1.cache.get lvl).systemd_properties).getD 0) "Get"
      [.str "org.freedesktop.systemd1.Manager", .str "Environment"] w1 with
  | .error e => .error e
  | .ok r =>
    match parseEnv [] r.1.toStrList with
    | .error e => .error e
    | .ok env => .ok (env, r.2)

/-- `list_units_by_patterns`: remote `ListUnitsByPatterns`. -/
def list_units_by_patterns (lvl : Level) (oracle : Oracle)
    (states patterns : List String) (w : World) : Except String (DVal × World) :=
  let w1 := add_systemd_manager lvl w
  callOp oracle (((w1.cache.get lvl).systemd_manager).getD 0)
    "ListUnitsByPatterns" [.list (states.map .str), .list (patterns.map .str)] w1

/-- `stop_unit`: remote `StopUnit(unit, job_mode)`. -/
def stop_unit (lvl : Level) (oracle : Oracle) (unit job_mode : String)
    (w : World) : Except String (DVal × World) :=
  let w1 := add_systemd_manager lvl w
  callOp oracle (((w1.cache.get lvl).systemd_manager).getD 0)
    "StopUnit" [.str unit, .str job_mode] w1

/-- `stop_unit` invoked with only the unit name: the `job_mode`
parameter has default value `"fail"` in the source signature. -/
def stop_unit_default (lvl : Level) (oracle : Oracle) (unit : String)
    (w : World) : Except String (DVal × World) :=
  stop_unit lvl oracle unit "fail" w

/-! ### Helper notions for the verification -/

/-- The process-fresh state: empty shared cache, no handles, no trace. -/
def freshWorld : World := ⟨⟨emptyLC, emptyLC⟩, 0, []⟩

/-- The state right after `DbusInteractions("session")` on a fresh cache:
the session bus handle `0` is cached, one connect operation happened. -/
def sessionWorld : World :=
  ⟨⟨emptyLC, { emptyLC with bus := some 0 }⟩, 1, [.connectBus .session]⟩

/-- Repeated construction of `DbusInteractions` instances for the same
level string against the shared cache. -/
def iterInit (s : String) : Nat → World → Except String World
  | 0, w => .ok w
  | n + 1, w =>
    match DbusInteractions_init s w with
    | .error e => .error e
    | .ok r => iterInit s n r.2

/-- Repeated calls of `add_systemd_unit_properties` for the same unit. -/
def iterAddUnit (lvl : Level) (oracle : Oracle) (uid : String) :
    Nat → World → Except String World
  | 0, w => .ok w
  | n + 1, w =>
    match add_systemd_unit_properties lvl oracle uid w with
    | .error e => .error e
    | .ok w1 => iterAddUnit lvl oracle uid n w1

def isConnect (lvl : Level) : Event → Bool
  | .connectBus l => l == lvl
  | _ => false

def isGetObj (service path : String) : Event → Bool
  | .getObject _ s (.str p) => s == service && p == path
  | _ => false

def isWrapOf (iface : String) : Event → Bool
  | .wrapInterface _ i => i == iface
  | _ => false

def isCallOf (m : String) : Event → Bool
  | .methodCall _ m' _ => m' == m
  | _ => false

/-- Number of recorded dbus-library operations matching `p`. -/
def countEv (p : Event → Bool) (w : World) : Nat := w.trace.countP p

/-- The assignment string has at least one `=` (Python split succeeds). -/
def hasEq (s : String) : Prop := '=' ∈ s.data

/-! ### Parsing lemmas for `get_systemd_vars` -/

lemma splitFirstEq_of_not_mem (v : List Char) :
    ∀ n : List Char, '=' ∉ n → splitFirstEq (n ++ '=' :: v) = some (n, v) := by
  intro n
  induction n with
  | nil => intro _; simp [splitFirstEq]
  | cons c rest ih =>
    intro h
    have hc : ¬ c = '=' := by
      intro hc
      exact h (by simp [hc])
    have hrest : '=' ∉ rest := fun hm => h (List.mem_cons_of_mem _ hm)
    simp [splitFirstEq, hc, ih hrest]

lemma splitFirstEq_eq_none_iff : ∀ l : List Char, splitFirstEq l = none ↔ '=' ∉ l := by
  intro l
  induction l with
  | nil => simp [splitFirstEq]
  | cons c rest ih =>
    by_cases hc : c = '='
    · subst hc
      simp [splitFirstEq]
    · rcases h : splitFirstEq rest with _ | p
      · simp [splitFirstEq, hc, h, List.mem_cons, Ne.symm hc, ih.mp h]
      · have hm : '=' ∈ rest := by
          by_contra hm
          rw [ih.mpr hm] at h
          cases h
        simp [splitFirstEq, hc, h, List.mem_cons, hm]

lemma split_assignment_ok_iff (s : String) :
    (∃ p, split_assignment s = .ok p) ↔ hasEq s := by
  unfold split_assignment hasEq
  rcases h : splitFirstEq s.data with _ | p
  · simp [h, (splitFirstEq_eq_none_iff s.data).mp h]
  · have hm : '=' ∈ s.data := by
      by_contra hm
      rw [(splitFirstEq_eq_none_iff s.data).mpr hm] at h
      cases h
    simp [h, hm]

lemma parseEnv_ok_iff :
    ∀ (asgs : List String) (env : List (String × String)),
      (∃ e, parseEnv env asgs = .ok e) ↔ ∀ a ∈ asgs, hasEq a := by
  intro asgs
  induction asgs with
  | nil => intro env; simp [parseEnv]
  | cons a rest ih =>
    intro env
    rcases h : split_assignment a with e | p
    · have hna : ¬ hasEq a := by
        intro hha
        rcases (split_assignment_ok_iff a).mpr hha with ⟨q, hq⟩
        rw [h] at hq
        cases hq
      simp [parseEnv, h, hna]
    · have hha : hasEq a := (split_assignment_ok_iff a).mp ⟨p, h⟩
      simp [parseEnv, h, ih, hha]

/-- With an oracle that answers the `Get` call with an array of
assignment strings, `get_systemd_vars` is the pure parse of them. -/
lemma get_systemd_vars_oracle (lvl : Level) (oracle : Oracle) (w : World)
    (strs : List String)
    (h : ∀ t a, oracle t "Get" a = .ok (.list (strs.map .str))) :
    get_systemd_vars lvl oracle w =
      (parseEnv [] strs).map (fun env => (env,
        (add_systemd_properties lvl w).emit
          (.methodCall
            (((add_systemd_properties lvl w).cache.get lvl).systemd_properties.getD 0)
            "Get" [.str "org.freedesktop.systemd1.Manager", .str "Environment"]))) := by
  unfold get_systemd_vars callOp
  have ht : DVal.toStrList (.list (strs.map .str)) = strs := by
    simp [DVal.toStrList, List.map_map]
    exact List.map_id strs
  cases hp : parseEnv [] strs <;> simp [h, ht, hp, Except.map]

/-- C2: `get_systemd_vars` splits each assignment on the FIRST `=` only
(values may contain `=`), later duplicates overwrite earlier ones, and on
the two concrete remote environments the results are as specified. -/
theorem get_systemd_vars_parse_spec :
    (∀ (n v : List Char), '=' ∉ n →
        split_assignment (String.mk (n ++ '=' :: v)) = .ok (String.mk n, String.mk v))
    ∧ (∀ (lvl : Level) (oracle : Oracle) (w : World),
        (∀ t a, oracle t "Get" a = .ok (.list [.str "A=1", .str "B=two=three"])) →
        ∃ w', get_systemd_vars lvl oracle w = .ok ([("A", "1"), ("B", "two=three")], w'))
    ∧ (∀ (lvl : Level) (oracle : Oracle) (w : World),
        (∀ t a, oracle t "Get" a = .ok (.list [.str "A=1", .str "A=2"])) →
        ∃ w', get_systemd_vars lvl oracle w = .ok ([("A", "2")], w')) := by
  refine ⟨?_, ?_, ?_⟩
  · intro n v hn
    unfold split_assignment
    rw [show (String.mk (n ++ '=' :: v)).data = n ++ '=' :: v from rfl,
      splitFirstEq_of_not_mem v n hn]
  · intro lvl oracle w h
    rw [get_systemd_vars_oracle lvl oracle w ["A=1", "B=two=three"] h]
    exact ⟨_, rfl⟩
  · intro lvl oracle w h
    rw [get_systemd_vars_oracle lvl oracle w ["A=1", "A=2"] h]
    exact ⟨_, rfl⟩

def oracleEnv1 : Oracle := fun _ _ _ => .ok (.list (["A=1", "B=two=three"].map .str))

def oracleEnv2 : Oracle := fun _ _ _ => .ok (.list (["A=1", "A=2"].map .str))

def oracleEnvBad : Oracle := fun _ _ _ => .ok (.list (["A=1", "noeq"].map .str))

theorem get_systemd_vars_parse_spec_witness :
    (∃ w', get_systemd_vars .session oracleEnv1 freshWorld
        = .ok ([("A", "1"), ("B", "two=three")], w'))
    ∧ (∃ w', get_systemd_vars .session oracleEnv2 freshWorld = .ok ([("A", "2")], w')) :=
  ⟨get_systemd_vars_parse_spec.2.1 .session oracleEnv1 freshWorld (fun _ _ => rfl),
   get_systemd_vars_parse_spec.2.2 .session oracleEnv2 freshWorld (fun _ _ => rfl)⟩

/-- C5: the parse of the returned `Environment` fails on an assignment
with no `=` (no guard skips or repairs it), and `get_systemd_vars`
returns normally iff every returned assignment has at least one `=`. -/
theorem get_systemd_vars_malformed_spec :
    (∀ (env : List (String × String)) (asgs : List String),
        (∃ e, parseEnv env asgs = .ok e) ↔ ∀ a ∈ asgs, hasEq a)
    ∧ (∀ (lvl : Level) (oracle : Oracle) (w : World) (strs : List String),
        (∀ t a, oracle t "Get" a = .ok (.list (strs.map .str))) →
        ((∃ r, get_systemd_vars lvl oracle w = .ok r) ↔ ∀ s ∈ strs, hasEq s)) := by
  constructor
  · intro env asgs
    exact parseEnv_ok_iff asgs env
  · intro lvl oracle w strs h
    rw [get_systemd_vars_oracle lvl oracle w strs h]
    rw [← parseEnv_ok_iff strs []]
    constructor
    · rintro ⟨r, hr⟩
      rcases he : parseEnv [] strs with e | env
      · rw [he] at hr
        cases hr
      · exact ⟨env, rfl⟩
    · rintro ⟨e, he⟩
      rw [he]
      exact ⟨_, rfl⟩

/-! ### Remote-call trace lemmas -/

lemma filter_callOf_add_systemd (m : String) (lvl : Level) (w : World) :
    ((add_systemd lvl w).trace).filter (isCallOf m) = w.trace.filter (isCallOf m) := by
  unfold add_systemd
  split <;> simp [World.alloc, World.setLC, List.filter_append, isCallOf]

lemma filter_callOf_manager (m : String) (lvl : Level) (w : World) :
    ((add_systemd_manager lvl w).trace).filter (isCallOf m)
      = w.trace.filter (isCallOf m) := by
  by_cases hm : ((add_systemd lvl w).cache.get lvl).systemd_manager = none <;>
    simp [add_systemd_manager, hm, World.alloc, World.setLC, List.filter_append,
      isCallOf, filter_callOf_add_systemd m lvl w]

lemma filter_callOf_add_dbus (m : String) (lvl : Level) (w : World) :
    ((add_dbus lvl w).trace).filter (isCallOf m) = w.trace.filter (isCallOf m) := by
  unfold add_dbus
  split <;> simp [World.alloc, World.setLC, List.filter_append, isCallOf]

lemma filter_callOf_dbus_interface (m : String) (lvl : Level) (w : World) :
    ((add_dbus_interface lvl w).trace).filter (isCallOf m)
      = w.trace.filter (isCallOf m) := by
  by_cases hm : ((add_dbus lvl w).cache.get lvl).dbus_interface = none <;>
    simp [add_dbus_interface, hm, World.alloc, World.setLC, List.filter_append,
      isCallOf, filter_callOf_add_dbus m lvl w]

/-- C7: a successful `set_systemd_vars` issues exactly one remote
`SetEnvironment` call, whose argument is the `NAME=value` assignment list
in the iteration order of the input dict; in particular
`{"X": "y", "Z": "1 2"}` sends `["X=y", "Z=1 2"]`. -/
theorem set_systemd_vars_spec (lvl : Level) (oracle : Oracle) (w : World) :
    (∀ (vars_dict : List (String × String)) (w' : World),
      set_systemd_vars lvl oracle vars_dict w = .ok w' →
      ∃ h, w'.trace.filter (isCallOf "SetEnvironment")
        = w.trace.filter (isCallOf "SetEnvironment")
          ++ [.methodCall h "SetEnvironment"
              [.list ((vars_dict.map (fun p => p.1 ++ "=" ++ p.2)).map .str)]])
    ∧ (∀ w' : World,
      set_systemd_vars lvl oracle [("X", "y"), ("Z", "1 2")] w = .ok w' →
      ∃ h, w'.trace.filter (isCallOf "SetEnvironment")
        = w.trace.filter (isCallOf "SetEnvironment")
          ++ [.methodCall h "SetEnvironment" [.list [.str "X=y", .str "Z=1 2"]]]) := by
  have heq : ∀ vars_dict : List (String × String),
      set_systemd_vars lvl oracle vars_dict w =
        (oracle (((add_systemd_manager lvl w).cache.get lvl).systemd_manager.getD 0)
          "SetEnvironment"
          [.list ((vars_dict.map (fun p => p.1 ++ "=" ++ p.2)).map .str)]).map
        (fun _ => (add_systemd_manager lvl w).emit
          (.methodCall (((add_systemd_manager lvl w).cache.get lvl).systemd_manager.getD 0)
            "SetEnvironment"
            [.list ((vars_dict.map (fun p => p.1 ++ "=" ++ p.2)).map .str)])) := by
    intro vars_dict
    unfold set_systemd_vars callOp
    cases ho : oracle (((add_systemd_manager lvl w).cache.get lvl).systemd_manager.getD 0)
        "SetEnvironment" [.list (vars_dict.map (DVal.str ∘ fun p => p.1 ++ "=" ++ p.2))] <;>
      simp [ho, Except.map]
  have main : ∀ (vars_dict : List (String × String)) (w' : World),
      set_systemd_vars lvl oracle vars_dict w = .ok w' →
      ∃ h, w'.trace.filter (isCallOf "SetEnvironment")
        = w.trace.filter (isCallOf "SetEnvironment")
          ++ [.methodCall h "SetEnvironment"
              [.list ((vars_dict.map (fun p => p.1 ++ "=" ++ p.2)).map .str)]] := by
    intro vars_dict w' hw
    rw [heq vars_dict] at hw
    rcases ho : oracle (((add_systemd_manager lvl w).cache.get lvl).systemd_manager.getD 0)
        "SetEnvironment" [.list ((vars_dict.map (fun p => p.1 ++ "=" ++ p.2)).map .str)]
      with e | v
    · rw [ho] at hw
      cases hw
    · rw [ho] at hw
      cases hw
      refine ⟨((add_systemd_manager lvl w).cache.get lvl).systemd_manager.getD 0, ?_⟩
      simp [World.emit, List.filter_append, isCallOf, filter_callOf_manager]
  exact ⟨main, main [("X", "y"), ("Z", "1 2")]⟩

def oracleVal : Oracle := fun _ _ _ => .ok (.str "/job/1")

theorem set_systemd_vars_spec_witness :
    ∃ w' h, set_systemd_vars .session oracleVal [("X", "y"), ("Z", "1 2")] sessionWorld = .ok w'
      ∧ w'.trace.filter (isCallOf "SetEnvironment")
        = sessionWorld.trace.filter (isCallOf "SetEnvironment")
          ++ [.methodCall h "SetEnvironment" [.list [.str "X=y", .str "Z=1 2"]]] := by
  obtain ⟨h, hh⟩ := (set_systemd_vars_spec .session oracleVal sessionWorld).2 _ rfl
  exact ⟨_, h, rfl, hh⟩

/-- C8: `stop_unit` called with only a unit name uses job mode `"fail"`
(the signature default), issues exactly one remote `StopUnit(unit, "fail")`
call, and passes the returned job handle through unchanged. -/
theorem stop_unit_default_spec (lvl : Level) (oracle : Oracle) (unit : String)
    (w : World) (v : DVal) (h : ∀ t a, oracle t "StopUnit" a = .ok v) :
    ∃ hndl w', stop_unit_default lvl oracle unit w = .ok (v, w')
      ∧ w'.trace.filter (isCallOf "StopUnit")
        = w.trace.filter (isCallOf "StopUnit")
          ++ [.methodCall hndl "StopUnit" [.str unit, .str "fail"]] := by
  refine ⟨((add_systemd_manager lvl w).cache.get lvl).systemd_manager.getD 0,
    (add_systemd_manager lvl w).emit
      (.methodCall (((add_systemd_manager lvl w).cache.get lvl).systemd_manager.getD 0)
        "StopUnit" [.str unit, .str "fail"]), ?_, ?_⟩
  · unfold stop_unit_default stop_unit callOp
    simp only [h]
  · simp [World.emit, List.filter_append, isCallOf, filter_callOf_manager]

theorem stop_unit_default_spec_witness :
    ∃ hndl w', stop_unit_default .session oracleVal "foo.service" sessionWorld
        = .ok (.str "/job/1", w')
      ∧ w'.trace.filter (isCallOf "StopUnit")
        = sessionWorld.trace.filter (isCallOf "StopUnit")
          ++ [.methodCall hndl "StopUnit" [.str "foo.service", .str "fail"]] :=
  stop_unit_default_spec .session oracleVal "foo.service" sessionWorld
    (.str "/job/1") (fun _ _ => rfl)

/-- C9: a fault raised by the bus layer during a remote call propagates
to the caller unmodified through every public operation; in particular a
fault of the per-unit `Get` (nonexistent unit) is not caught or
translated by `get_unit_property`. -/
theorem remote_fault_propagates (lvl : Level) (f : String) (oracle : Oracle)
    (h : ∀ t m a, oracle t m a = .error f) (w : World)
    (uid prop mode : String) (vars : List (String × String))
    (names states pats : List String) :
    get_unit_property lvl oracle uid prop w = .error f
    ∧ reload_systemd lvl oracle w = .error f
    ∧ list_systemd_jobs lvl oracle w = .error f
    ∧ set_dbus_vars lvl oracle vars w = .error f
    ∧ set_systemd_vars lvl oracle vars w = .error f
    ∧ unset_systemd_vars lvl oracle names w = .error f
    ∧ get_systemd_vars lvl oracle w = .error f
    ∧ list_units_by_patterns lvl oracle states pats w = .error f
    ∧ stop_unit lvl oracle uid mode w = .error f
    ∧ (∀ (oracle2 : Oracle) (w1 : World),
        add_systemd_unit_properties lvl oracle2 uid w = .ok w1 →
        oracle2 ((lookupUnit (w1.cache.get lvl) uid).getD 0) "Get"
          [.str "org.freedesktop.systemd1.Unit", .str prop] = .error f →
        get_unit_property lvl oracle2 uid prop w = .error f) := by
  refine ⟨?_, ?_, ?_, ?_, ?_, ?_, ?_, ?_, ?_, ?_⟩
  · unfold get_unit_property add_systemd_unit_properties callOp
    simp only [h]
  · unfold reload_systemd callOp
    simp only [h]
  · unfold list_systemd_jobs callOp
    simp only [h]
  · unfold set_dbus_vars callOp
    simp only [h]
    rfl
  · unfold set_systemd_vars callOp
    simp only [h]
    rfl
  · unfold unset_systemd_vars callOp
    simp only [h]
    rfl
  · unfold get_systemd_vars callOp
    simp only [h]
  · unfold list_units_by_patterns callOp
    simp only [h]
  · unfold stop_unit callOp
    simp only [h]
  · intro oracle2 w1 h1 h2
    unfold get_unit_property
    rw [h1]
    unfold callOp
    simp only [h2]

def oracleFail : Oracle := fun _ _ _ => .error "boom"

theorem remote_fault_propagates_witness :
    get_unit_property .session oracleFail "nonexistent.service" "ActiveState" freshWorld
        = .error "boom"
    ∧ stop_unit .session oracleFail "foo.service" "fail" freshWorld = .error "boom" := by
  have h := remote_fault_propagates .session "boom" oracleFail (fun _ _ _ => rfl)
    freshWorld "nonexistent.service" "ActiveState" "fail" [] [] [] []
  exact ⟨h.1, h.2.2.2.2.2.2.2.2.1⟩

theorem get_systemd_vars_malformed_spec_witness :
    ((∃ r, get_systemd_vars .session oracleEnvBad freshWorld = .ok r)
        ↔ ∀ s ∈ ["A=1", "noeq"], hasEq s)
    ∧ ((∃ e, parseEnv [] ["A=1", "noeq"] = .ok e) ↔ ∀ a ∈ ["A=1", "noeq"], hasEq a) :=
  ⟨get_systemd_vars_malformed_spec.2 .session oracleEnvBad freshWorld
      ["A=1", "noeq"] (fun _ _ => rfl),
   get_systemd_vars_malformed_spec.1 [] ["A=1", "noeq"]⟩

/-! ### Cache structure lemmas -/

@[simp] lemma Cache.get_set_self (c : Cache) (lvl : Level) (lc : LevelCache) :
    (c.set lvl lc).get lvl = lc := by
  cases lvl <;> rfl

@[simp] lemma Cache.get_set_other (c : Cache) (lvl : Level) (lc : LevelCache) :
    (c.set lvl lc).get lvl.other = c.get lvl.other := by
  cases lvl <;> rfl

@[simp] lemma Cache.get_set_other_rev (c : Cache) (lvl : Level) (lc : LevelCache) :
    (c.set lvl.other lc).get lvl = c.get lvl := by
  cases lvl <;> rfl

@[simp] lemma Cache.set_get (c : Cache) (lvl : Level) :
    c.set lvl (c.get lvl) = c := by
  cases lvl <;> rfl

lemma Cache.set_other_comm (c : Cache) (lvl : Level) (lc lc' : LevelCache) :
    (c.set lvl.other lc').set lvl lc = (c.set lvl lc).set lvl.other lc' := by
  cases lvl <;> rfl

/-! ### Behaviour of the ensure-present accessors -/

lemma add_systemd_of_some (lvl : Level) (w : World)
    (h : (w.cache.get lvl).systemd ≠ none) : add_systemd lvl w = w := by
  simp [add_systemd, h]

lemma add_systemd_state (lvl : Level) (w : World) :
    ((add_systemd lvl w).cache.get lvl).systemd ≠ none := by
  by_cases h : (w.cache.get lvl).systemd = none <;>
    simp [add_systemd, h, World.alloc, World.setLC]

/-- `add_systemd` touches no slot other than `systemd`. -/
lemma add_systemd_preserves (lvl : Level) (w : World) :
    ((add_systemd lvl w).cache.get lvl).bus = (w.cache.get lvl).bus
    ∧ ((add_systemd lvl w).cache.get lvl).systemd_manager = (w.cache.get lvl).systemd_manager
    ∧ ((add_systemd lvl w).cache.get lvl).systemd_properties = (w.cache.get lvl).systemd_properties
    ∧ ((add_systemd lvl w).cache.get lvl).unit_properties = (w.cache.get lvl).unit_properties
    ∧ ((add_systemd lvl w).cache.get lvl).dbus = (w.cache.get lvl).dbus
    ∧ ((add_systemd lvl w).cache.get lvl).dbus_interface = (w.cache.get lvl).dbus_interface := by
  by_cases h : (w.cache.get lvl).systemd = none <;>
    simp [add_systemd, h, World.alloc, World.setLC]

lemma add_systemd_idem (lvl : Level) (w : World) :
    add_systemd lvl (add_systemd lvl w) = add_systemd lvl w :=
  add_systemd_of_some lvl _ (add_systemd_state lvl w)

lemma add_systemd_trace_of_none (lvl : Level) (w : World)
    (h : (w.cache.get lvl).systemd = none) :
    (add_systemd lvl w).trace = w.trace
      ++ [.getObject ((w.cache.get lvl).bus.getD 0) "org.freedesktop.systemd1"
            (.str "/org/freedesktop/systemd1")] := by
  simp [add_systemd, h, World.alloc, World.setLC]

lemma add_dbus_of_some (lvl : Level) (w : World)
    (h : (w.cache.get lvl).dbus ≠ none) : add_dbus lvl w = w := by
  simp [add_dbus, h]

lemma add_dbus_state (lvl : Level) (w : World) :
    ((add_dbus lvl w).cache.get lvl).dbus ≠ none := by
  by_cases h : (w.cache.get lvl).dbus = none <;>
    simp [add_dbus, h, World.alloc, World.setLC]

lemma add_dbus_preserves (lvl : Level) (w : World) :
    ((add_dbus lvl w).cache.get lvl).bus = (w.cache.get lvl).bus
    ∧ ((add_dbus lvl w).cache.get lvl).systemd = (w.cache.get lvl).systemd
    ∧ ((add_dbus lvl w).cache.get lvl).systemd_manager = (w.cache.get lvl).systemd_manager
    ∧ ((add_dbus lvl w).cache.get lvl).systemd_properties = (w.cache.get lvl).systemd_properties
    ∧ ((add_dbus lvl w).cache.get lvl).unit_properties = (w.cache.get lvl).unit_properties
    ∧ ((add_dbus lvl w).cache.get lvl).dbus_interface = (w.cache.get lvl).dbus_interface := by
  by_cases h : (w.cache.get lvl).dbus = none <;>
    simp [add_dbus, h, World.alloc, World.setLC]

lemma add_dbus_idem (lvl : Level) (w : World) :
    add_dbus lvl (add_dbus lvl w) = add_dbus lvl w :=
  add_dbus_of_some lvl _ (add_dbus_state lvl w)

lemma add_dbus_trace_of_none (lvl : Level) (w : World)
    (h : (w.cache.get lvl).dbus = none) :
    (add_dbus lvl w).trace = w.trace
      ++ [.getObject ((w.cache.get lvl).bus.getD 0) "org.freedesktop.DBus"
            (.str "/org/freedesktop/DBus")] := by
  simp [add_dbus, h, World.alloc, World.setLC]

lemma add_systemd_manager_of_ready (lvl : Level) (w : World)
    (hs : (w.cache.get lvl).systemd ≠ none)
    (hm : (w.cache.get lvl).systemd_manager ≠ none) :
    add_systemd_manager lvl w = w := by
  simp [add_systemd_manager, add_systemd_of_some lvl w hs, hm]

lemma add_systemd_manager_state (lvl : Level) (w : World) :
    ((add_systemd_manager lvl w).cache.get lvl).systemd ≠ none
    ∧ ((add_systemd_manager lvl w).cache.get lvl).systemd_manager ≠ none := by
  by_cases hm : ((add_systemd lvl w).cache.get lvl).systemd_manager = none <;>
    simp [add_systemd_manager, hm, World.alloc, World.setLC, add_systemd_state lvl w]

lemma add_systemd_manager_preserves (lvl : Level) (w : World) :
    ((add_systemd_manager lvl w).cache.get lvl).bus = (w.cache.get lvl).bus
    ∧ ((add_systemd_manager lvl w).cache.get lvl).systemd_properties
        = (w.cache.get lvl).systemd_properties
    ∧ ((add_systemd_manager lvl w).cache.get lvl).unit_properties
        = (w.cache.get lvl).unit_properties
    ∧ ((add_systemd_manager lvl w).cache.get lvl).dbus = (w.cache.get lvl).dbus
    ∧ ((add_systemd_manager lvl w).cache.get lvl).dbus_interface
        = (w.cache.get lvl).dbus_interface := by
  have hp := add_systemd_preserves lvl w
  by_cases hm : ((add_systemd lvl w).cache.get lvl).systemd_manager = none <;>
    simp [add_systemd_manager, hm, World.alloc, World.setLC, hp.1, hp.2.2.1,
      hp.2.2.2.1, hp.2.2.2.2.1, hp.2.2.2.2.2]

lemma add_systemd_manager_idem (lvl : Level) (w : World) :
    add_systemd_manager lvl (add_systemd_manager lvl w) = add_systemd_manager lvl w :=
  add_systemd_manager_of_ready lvl _ (add_systemd_manager_state lvl w).1
    (add_systemd_manager_state lvl w).2

lemma add_systemd_manager_trace_of_none (lvl : Level) (w : World)
    (hm : (w.cache.get lvl).systemd_manager = none) :
    (add_systemd_manager lvl w).trace = (add_systemd lvl w).trace
      ++ [.wrapInterface (((add_systemd lvl w).cache.get lvl).systemd.getD 0)
            "org.freedesktop.systemd1.Manager"] := by
  have hm' : ((add_systemd lvl w).cache.get lvl).systemd_manager = none := by
    rw [(add_systemd_preserves lvl w).2.1, hm]
  simp [add_systemd_manager, hm', World.alloc, World.setLC]

lemma add_systemd_properties_of_ready (lvl : Level) (w : World)
    (hs : (w.cache.get lvl).systemd ≠ none)
    (hp : (w.cache.get lvl).systemd_properties ≠ none) :
    add_systemd_properties lvl w = w := by
  simp [add_systemd_properties, add_systemd_of_some lvl w hs, hp]

lemma add_systemd_properties_state (lvl : Level) (w : World) :
    ((add_systemd_properties lvl w).cache.get lvl).systemd ≠ none
    ∧ ((add_systemd_properties lvl w).cache.get lvl).systemd_properties ≠ none := by
  by_cases hp : ((add_systemd lvl w).cache.get lvl).systemd_properties = none <;>
    simp [add_systemd_properties, hp, World.alloc, World.setLC, add_systemd_state lvl w]

lemma add_systemd_properties_idem (lvl : Level) (w : World) :
    add_systemd_properties lvl (add_systemd_properties lvl w)
      = add_systemd_properties lvl w :=
  add_systemd_properties_of_ready lvl _ (add_systemd_properties_state lvl w).1
    (add_systemd_properties_state lvl w).2

lemma add_systemd_properties_trace_of_none (lvl : Level) (w : World)
    (hp : (w.cache.get lvl).systemd_properties = none) :
    (add_systemd_properties lvl w).trace = (add_systemd lvl w).trace
      ++ [.wrapInterface (((add_systemd lvl w).cache.get lvl).systemd.getD 0)
            "org.freedesktop.DBus.Properties"] := by
  have hp' : ((add_systemd lvl w).cache.get lvl).systemd_properties = none := by
    rw [(add_systemd_preserves lvl w).2.2.1, hp]
  simp [add_systemd_properties, hp', World.alloc, World.setLC]

lemma add_dbus_interface_of_ready (lvl : Level) (w : World)
    (hd : (w.cache.get lvl).dbus ≠ none)
    (hi : (w.cache.get lvl).dbus_interface ≠ none) :
    add_dbus_interface lvl w = w := by
  simp [add_dbus_interface, add_dbus_of_some lvl w hd, hi]

lemma add_dbus_interface_state (lvl : Level) (w : World) :
    ((add_dbus_interface lvl w).cache.get lvl).dbus ≠ none
    ∧ ((add_dbus_interface lvl w).cache.get lvl).dbus_interface ≠ none := by
  by_cases hi : ((add_dbus lvl w).cache.get lvl).dbus_interface = none <;>
    simp [add_dbus_interface, hi, World.alloc, World.setLC, add_dbus_state lvl w]

lemma add_dbus_interface_idem (lvl : Level) (w : World) :
    add_dbus_interface lvl (add_dbus_interface lvl w) = add_dbus_interface lvl w :=
  add_dbus_interface_of_ready lvl _ (add_dbus_interface_state lvl w).1
    (add_dbus_interface_state lvl w).2

lemma add_dbus_interface_trace_of_none (lvl : Level) (w : World)
    (hi : (w.cache.get lvl).dbus_interface = none) :
    (add_dbus_interface lvl w).trace = (add_dbus lvl w).trace
      ++ [.wrapInterface (((add_dbus lvl w).cache.get lvl).dbus.getD 0)
            "org.freedesktop.DBus"] := by
  have hi' : ((add_dbus lvl w).cache.get lvl).dbus_interface = none := by
    rw [(add_dbus_preserves lvl w).2.2.2.2.2, hi]
  simp [add_dbus_interface, hi', World.alloc, World.setLC]

lemma iterate_eq_of_idem {f : World → World} (hf : ∀ w, f (f w) = f w) :
    ∀ (n : Nat) (w : World), f^[n + 1] w = f w := by
  intro n
  induction n with
  | zero => intro w; simp
  | succ k ih =>
    intro w
    rw [Function.iterate_succ_apply, ih (f w), hf]

/-! ### Behaviour of the per-unit accessor -/

lemma lookup_append_of_none {l : List (String × Nat)} {u : String}
    (h : List.lookup u l = none) (hn : Nat) :
    List.lookup u (l ++ [(u, hn)]) = some hn := by
  induction l with
  | nil => simp [List.lookup]
  | cons p rest ih =>
    rw [List.lookup] at h
    rcases hpu : (u == p.1) with _ | _
    · simp only [List.cons_append, List.lookup, hpu] at h ⊢
      exact ih h
    · rw [hpu] at h
      cases h

lemma lookup_append_of_some {l l2 : List (String × Nat)} {u : String} {v : Nat}
    (h : List.lookup u l = some v) : List.lookup u (l ++ l2) = some v := by
  induction l with
  | nil => cases h
  | cons p rest ih =>
    rw [List.lookup] at h
    rcases hpu : (u == p.1) with _ | _
    · simp only [List.cons_append, List.lookup, hpu] at h ⊢
      exact ih h
    · simp only [List.cons_append, List.lookup, hpu] at h ⊢
      exact h

/-- The successful result of `add_systemd_unit_properties`, as a function
of the pre-state and the path value returned by `GetUnit`. -/
def addUnitOk (lvl : Level) (uid : String) (w : World) (pv : DVal) : World :=
  let w1 := add_systemd_manager lvl w
  let w2 := w1.emit (.methodCall ((w1.cache.get lvl).systemd_manager.getD 0)
    "GetUnit" [.str uid])
  let p := w2.alloc (.getObject ((w2.cache.get lvl).bus.getD 0)
    "org.freedesktop.systemd1" pv)
  let lc := p.2.cache.get lvl
  let w4 := p.2.setLC lvl
    (if lc.unit_properties = none then { lc with unit_properties := some [] } else lc)
  if lookupUnit (w4.cache.get lvl) uid = none then
    let q := w4.alloc (.wrapInterface p.1 "org.freedesktop.DBus.Properties")
    let lc5 := q.2.cache.get lvl
    q.2.setLC lvl
      { lc5 with unit_properties := some ((lc5.unit_properties.getD []) ++ [(uid, q.1)]) }
  else w4

lemma addUnit_cases (lvl : Level) (oracle : Oracle) (uid : String) (w : World) :
    (∃ e, oracle (((add_systemd_manager lvl w).cache.get lvl).systemd_manager.getD 0)
        "GetUnit" [.str uid] = .error e
      ∧ add_systemd_unit_properties lvl oracle uid w = .error e)
    ∨ (∃ pv, oracle (((add_systemd_manager lvl w).cache.get lvl).systemd_manager.getD 0)
        "GetUnit" [.str uid] = .ok pv
      ∧ add_systemd_unit_properties lvl oracle uid w = .ok (addUnitOk lvl uid w pv)) := by
  cases ho : oracle (((add_systemd_manager lvl w).cache.get lvl).systemd_manager.getD 0)
      "GetUnit" [.str uid] with
  | error e =>
    left
    exact ⟨e, rfl, by simp [add_systemd_unit_properties, callOp, ho]⟩
  | ok pv =>
    right
    refine ⟨pv, rfl, ?_⟩
    simp only [add_systemd_unit_properties, callOp, addUnitOk, ho,
      World.emit, World.alloc, World.setLC, Cache.get_set_self, apply_ite Except.ok]

lemma lookupUnit_up_ne_none {lc : LevelCache} {uid : String}
    (h : lookupUnit lc uid ≠ none) : lc.unit_properties ≠ none := by
  intro hu
  exact h (by simp [lookupUnit, hu])

/-- The per-unit accessor's ok-result cache at the instance level, in
closed form. -/
lemma addUnitOk_cache_get (lvl : Level) (uid : String) (w : World) (pv : DVal) :
    (addUnitOk lvl uid w pv).cache.get lvl =
      (let lc := (add_systemd_manager lvl w).cache.get lvl
       let lc1 := if lc.unit_properties = none
         then { lc with unit_properties := some [] } else lc
       let ups := (lc1.unit_properties.getD [])
         ++ [(uid, (add_systemd_manager lvl w).counter + 1)]
       if lookupUnit lc1 uid = none
       then { lc1 with unit_properties := some ups }
       else lc1) := by
  simp only [addUnitOk, World.emit, World.alloc, World.setLC, Cache.get_set_self]
  split <;> split <;> simp

/-- Which slot states the successful per-unit accessor leaves behind. -/
lemma addUnitOk_state (lvl : Level) (uid : String) (w : World) (pv : DVal) :
    ((addUnitOk lvl uid w pv).cache.get lvl).systemd ≠ none
    ∧ ((addUnitOk lvl uid w pv).cache.get lvl).systemd_manager ≠ none
    ∧ lookupUnit ((addUnitOk lvl uid w pv).cache.get lvl) uid ≠ none := by
  rw [addUnitOk_cache_get]
  have hst := add_systemd_manager_state lvl w
  by_cases hup : ((add_systemd_manager lvl w).cache.get lvl).unit_properties = none
  · simp [hup, lookupUnit, hst.1, hst.2, List.lookup]
  · by_cases hlk : lookupUnit ((add_systemd_manager lvl w).cache.get lvl) uid = none
    · have hlk' : List.lookup uid
          (((add_systemd_manager lvl w).cache.get lvl).unit_properties.getD []) = none := hlk
      simp [hup, hlk', lookupUnit, hst.1, hst.2,
        lookup_append_of_none hlk' ((add_systemd_manager lvl w).counter + 1)]
    · have hlk' : ¬ List.lookup uid
          (((add_systemd_manager lvl w).cache.get lvl).unit_properties.getD []) = none := hlk
      simp [hup, hlk', lookupUnit, hst.1, hst.2]

/-- Once the manager interface exists and the unit is cached, a repeated
per-unit access changes no cache slot: it only re-issues the `GetUnit`
remote call and the `get_object` resolution. -/
lemma addUnitOk_of_ready (lvl : Level) (uid : String) (w : World) (pv : DVal)
    (h1 : (w.cache.get lvl).systemd ≠ none)
    (h2 : (w.cache.get lvl).systemd_manager ≠ none)
    (h3 : lookupUnit (w.cache.get lvl) uid ≠ none) :
    addUnitOk lvl uid w pv =
      { w with
          counter := w.counter + 1,
          trace := w.trace
            ++ [.methodCall ((w.cache.get lvl).systemd_manager.getD 0) "GetUnit" [.str uid],
                .getObject ((w.cache.get lvl).bus.getD 0) "org.freedesktop.systemd1" pv] } := by
  have hup : (w.cache.get lvl).unit_properties ≠ none := lookupUnit_up_ne_none h3
  have hmr := add_systemd_manager_of_ready lvl w h1 h2
  simp [addUnitOk, hmr, hup, h3, World.emit, World.alloc, World.setLC]

lemma countEv_add_systemd (p : Event → Bool) (lvl : Level) (w : World)
    (hp : ∀ b s pv, p (.getObject b s pv) = false) :
    countEv p (add_systemd lvl w) = countEv p w := by
  by_cases h : (w.cache.get lvl).systemd = none
  · rw [countEv, add_systemd_trace_of_none lvl w h]
    simp [List.countP_append, hp, countEv, List.countP_cons]
  · rw [add_systemd_of_some lvl w h]

lemma countEv_manager (p : Event → Bool) (lvl : Level) (w : World)
    (hpo : ∀ b s pv, p (.getObject b s pv) = false)
    (hpw : ∀ t, p (.wrapInterface t "org.freedesktop.systemd1.Manager") = false) :
    countEv p (add_systemd_manager lvl w) = countEv p w := by
  by_cases hm : (w.cache.get lvl).systemd_manager = none
  · rw [countEv, add_systemd_manager_trace_of_none lvl w hm]
    simp [List.countP_append, hpw, List.countP_cons]
    exact countEv_add_systemd p lvl w hpo
  · have hm' : ((add_systemd lvl w).cache.get lvl).systemd_manager ≠ none := by
      rw [(add_systemd_preserves lvl w).2.1]
      exact hm
    simp [add_systemd_manager, hm', countEv_add_systemd p lvl w hpo]

/-- Trace growth of one ready-state repeat call: one `GetUnit` remote
call, no interface-wrap create. -/
lemma countEv_addUnitOk_of_ready (lvl : Level) (uid : String) (w : World) (pv : DVal)
    (h1 : (w.cache.get lvl).systemd ≠ none)
    (h2 : (w.cache.get lvl).systemd_manager ≠ none)
    (h3 : lookupUnit (w.cache.get lvl) uid ≠ none) :
    countEv (isWrapOf "org.freedesktop.DBus.Properties") (addUnitOk lvl uid w pv)
      = countEv (isWrapOf "org.freedesktop.DBus.Properties") w
    ∧ countEv (isCallOf "GetUnit") (addUnitOk lvl uid w pv)
        = countEv (isCallOf "GetUnit") w + 1 := by
  rw [addUnitOk_of_ready lvl uid w pv h1 h2 h3]
  constructor <;>
    simp [countEv, List.countP_append, List.countP_cons, isWrapOf, isCallOf]

/-- Iterating the per-unit accessor from a ready state leaves the cache
unchanged while issuing one remote `GetUnit` per call. -/
lemma iterAddUnit_of_ready (lvl : Level) (oracle : Oracle) (uid : String) :
    ∀ (n : Nat) (w w' : World),
      (w.cache.get lvl).systemd ≠ none →
      (w.cache.get lvl).systemd_manager ≠ none →
      lookupUnit (w.cache.get lvl) uid ≠ none →
      iterAddUnit lvl oracle uid n w = .ok w' →
      w'.cache = w.cache
      ∧ countEv (isWrapOf "org.freedesktop.DBus.Properties") w'
          = countEv (isWrapOf "org.freedesktop.DBus.Properties") w
      ∧ countEv (isCallOf "GetUnit") w' = countEv (isCallOf "GetUnit") w + n := by
  intro n
  induction n with
  | zero =>
    intro w w' _ _ _ hit
    rw [iterAddUnit] at hit
    cases hit
    simp
  | succ k ih =>
    intro w w' h1 h2 h3 hit
    rcases addUnit_cases lvl oracle uid w with ⟨e, _, hadd⟩ | ⟨pv, _, hadd⟩
    · rw [iterAddUnit, hadd] at hit
      cases hit
    · rw [iterAddUnit, hadd] at hit
      have hc := countEv_addUnitOk_of_ready lvl uid w pv h1 h2 h3
      have hcache : (addUnitOk lvl uid w pv).cache = w.cache := by
        rw [addUnitOk_of_ready lvl uid w pv h1 h2 h3]
      have h1' : ((addUnitOk lvl uid w pv).cache.get lvl).systemd ≠ none := by
        rw [hcache]; exact h1
      have h2' : ((addUnitOk lvl uid w pv).cache.get lvl).systemd_manager ≠ none := by
        rw [hcache]; exact h2
      have h3' : lookupUnit ((addUnitOk lvl uid w pv).cache.get lvl) uid ≠ none := by
        rw [hcache]; exact h3
      obtain ⟨ha, hb, hg⟩ := ih (addUnitOk lvl uid w pv) w' h1' h2' h3' hit
      refine ⟨ha.trans hcache, ?_, ?_⟩
      · rw [hb, hc.1]
      · rw [hg, hc.2]
        omega

lemma countEv_add_dbus (p : Event → Bool) (lvl : Level) (w : World)
    (hp : ∀ b s pv, p (.getObject b s pv) = false) :
    countEv p (add_dbus lvl w) = countEv p w := by
  by_cases h : (w.cache.get lvl).dbus = none
  · rw [countEv, add_dbus_trace_of_none lvl w h]
    simp [List.countP_append, hp, countEv, List.countP_cons]
  · rw [add_dbus_of_some lvl w h]

/-- Trace of the per-unit accessor when the unit is not yet cached. -/
lemma addUnitOk_trace_of_absent (lvl : Level) (uid : String) (w : World) (pv : DVal)
    (hu : lookupUnit (w.cache.get lvl) uid = none) :
    (addUnitOk lvl uid w pv).trace = (add_systemd_manager lvl w).trace
      ++ [.methodCall (((add_systemd_manager lvl w).cache.get lvl).systemd_manager.getD 0)
            "GetUnit" [.str uid],
          .getObject (((add_systemd_manager lvl w).cache.get lvl).bus.getD 0)
            "org.freedesktop.systemd1" pv,
          .wrapInterface (add_systemd_manager lvl w).counter
            "org.freedesktop.DBus.Properties"] := by
  have hpres := (add_systemd_manager_preserves lvl w).2.2.1
  have hu' : List.lookup uid
      (((add_systemd_manager lvl w).cache.get lvl).unit_properties.getD []) = none := by
    rw [hpres]
    exact hu
  by_cases hup : ((add_systemd_manager lvl w).cache.get lvl).unit_properties = none <;>
    simp [addUnitOk, World.emit, World.alloc, World.setLC, hup, hu', lookupUnit, List.lookup]

lemma countEv_addUnitOk_first (lvl : Level) (uid : String) (w : World) (pv : DVal)
    (hu : lookupUnit (w.cache.get lvl) uid = none) :
    countEv (isWrapOf "org.freedesktop.DBus.Properties") (addUnitOk lvl uid w pv)
      = countEv (isWrapOf "org.freedesktop.DBus.Properties") w + 1
    ∧ countEv (isCallOf "GetUnit") (addUnitOk lvl uid w pv)
        = countEv (isCallOf "GetUnit") w + 1 := by
  constructor
  · rw [countEv, addUnitOk_trace_of_absent lvl uid w pv hu]
    have hm := countEv_manager (isWrapOf "org.freedesktop.DBus.Properties") lvl w
      (fun _ _ _ => rfl) (fun _ => rfl)
    rw [countEv, countEv] at hm
    simp [List.countP_append, List.countP_cons, isWrapOf, isCallOf, hm, countEv]
  · rw [countEv, addUnitOk_trace_of_absent lvl uid w pv hu]
    have hm := countEv_manager (isCallOf "GetUnit") lvl w
      (fun _ _ _ => rfl) (fun _ => rfl)
    rw [countEv, countEv] at hm
    simp [List.countP_append, List.countP_cons, isWrapOf, isCallOf, hm, countEv]

/-- C1 (amended): the five parameterless ensure-present accessors are
idempotent and side-effect-free after the first call — N ≥ 1 calls equal
one call, and when the slot starts empty its create operation runs
exactly once.  The per-unit accessor populates its per-unit slot exactly
once (one interface-wrap create; repeat calls leave the whole cache
unchanged), but is NOT side-effect-free after the first call: every call
re-issues the remote `GetUnit` lookup, so N calls perform N `GetUnit`s. -/
theorem ensure_accessors_idempotent (lvl : Level) (w : World) (n : Nat) :
    ((add_systemd lvl)^[n + 1] w = add_systemd lvl w)
    ∧ ((add_systemd_manager lvl)^[n + 1] w = add_systemd_manager lvl w)
    ∧ ((add_systemd_properties lvl)^[n + 1] w = add_systemd_properties lvl w)
    ∧ ((add_dbus lvl)^[n + 1] w = add_dbus lvl w)
    ∧ ((add_dbus_interface lvl)^[n + 1] w = add_dbus_interface lvl w)
    ∧ ((w.cache.get lvl).systemd = none →
        (((add_systemd lvl)^[n + 1] w).cache.get lvl).systemd ≠ none
        ∧ countEv (isGetObj "org.freedesktop.systemd1" "/org/freedesktop/systemd1")
            ((add_systemd lvl)^[n + 1] w)
          = countEv (isGetObj "org.freedesktop.systemd1" "/org/freedesktop/systemd1") w + 1)
    ∧ ((w.cache.get lvl).systemd_manager = none →
        (((add_systemd_manager lvl)^[n + 1] w).cache.get lvl).systemd_manager ≠ none
        ∧ countEv (isWrapOf "org.freedesktop.systemd1.Manager")
            ((add_systemd_manager lvl)^[n + 1] w)
          = countEv (isWrapOf "org.freedesktop.systemd1.Manager") w + 1)
    ∧ ((w.cache.get lvl).systemd_properties = none →
        (((add_systemd_properties lvl)^[n + 1] w).cache.get lvl).systemd_properties ≠ none
        ∧ countEv (isWrapOf "org.freedesktop.DBus.Properties")
            ((add_systemd_properties lvl)^[n + 1] w)
          = countEv (isWrapOf "org.freedesktop.DBus.Properties") w + 1)
    ∧ ((w.cache.get lvl).dbus = none →
        (((add_dbus lvl)^[n + 1] w).cache.get lvl).dbus ≠ none
        ∧ countEv (isGetObj "org.freedesktop.DBus" "/org/freedesktop/DBus")
            ((add_dbus lvl)^[n + 1] w)
          = countEv (isGetObj "org.freedesktop.DBus" "/org/freedesktop/DBus") w + 1)
    ∧ ((w.cache.get lvl).dbus_interface = none →
        (((add_dbus_interface lvl)^[n + 1] w).cache.get lvl).dbus_interface ≠ none
        ∧ countEv (isWrapOf "org.freedesktop.DBus")
            ((add_dbus_interface lvl)^[n + 1] w)
          = countEv (isWrapOf "org.freedesktop.DBus") w + 1)
    ∧ (∀ (oracle : Oracle) (uid : String) (w' : World),
        lookupUnit (w.cache.get lvl) uid = none →
        iterAddUnit lvl oracle uid (n + 1) w = .ok w' →
        ∃ w1, add_systemd_unit_properties lvl oracle uid w = .ok w1
          ∧ w'.cache = w1.cache
          ∧ lookupUnit (w'.cache.get lvl) uid ≠ none
          ∧ countEv (isWrapOf "org.freedesktop.DBus.Properties") w'
              = countEv (isWrapOf "org.freedesktop.DBus.Properties") w + 1
          ∧ countEv (isCallOf "GetUnit") w'
              = countEv (isCallOf "GetUnit") w + (n + 1)) := by
  refine ⟨iterate_eq_of_idem (add_systemd_idem lvl) n w,
    iterate_eq_of_idem (add_systemd_manager_idem lvl) n w,
    iterate_eq_of_idem (add_systemd_properties_idem lvl) n w,
    iterate_eq_of_idem (add_dbus_idem lvl) n w,
    iterate_eq_of_idem (add_dbus_interface_idem lvl) n w,
    ?_, ?_, ?_, ?_, ?_, ?_⟩
  · intro h
    rw [iterate_eq_of_idem (add_systemd_idem lvl) n w]
    refine ⟨add_systemd_state lvl w, ?_⟩
    rw [countEv, countEv, add_systemd_trace_of_none lvl w h]
    simp [List.countP_append, List.countP_cons, isGetObj]
  · intro h
    rw [iterate_eq_of_idem (add_systemd_manager_idem lvl) n w]
    refine ⟨(add_systemd_manager_state lvl w).2, ?_⟩
    have hs := countEv_add_systemd (isWrapOf "org.freedesktop.systemd1.Manager") lvl w
      (fun _ _ _ => rfl)
    rw [countEv, countEv] at hs
    rw [countEv, countEv, add_systemd_manager_trace_of_none lvl w h]
    simp [List.countP_append, List.countP_cons, isWrapOf, hs]
  · intro h
    rw [iterate_eq_of_idem (add_systemd_properties_idem lvl) n w]
    refine ⟨(add_systemd_properties_state lvl w).2, ?_⟩
    have hs := countEv_add_systemd (isWrapOf "org.freedesktop.DBus.Properties") lvl w
      (fun _ _ _ => rfl)
    rw [countEv, countEv] at hs
    rw [countEv, countEv, add_systemd_properties_trace_of_none lvl w h]
    simp [List.countP_append, List.countP_cons, isWrapOf, hs]
  · intro h
    rw [iterate_eq_of_idem (add_dbus_idem lvl) n w]
    refine ⟨add_dbus_state lvl w, ?_⟩
    rw [countEv, countEv, add_dbus_trace_of_none lvl w h]
    simp [List.countP_append, List.countP_cons, isGetObj]
  · intro h
    rw [iterate_eq_of_idem (add_dbus_interface_idem lvl) n w]
    refine ⟨(add_dbus_interface_state lvl w).2, ?_⟩
    have hs := countEv_add_dbus (isWrapOf "org.freedesktop.DBus") lvl w
      (fun _ _ _ => rfl)
    rw [countEv, countEv] at hs
    rw [countEv, countEv, add_dbus_interface_trace_of_none lvl w h]
    simp [List.countP_append, List.countP_cons, isWrapOf, hs]
  · intro oracle uid w' hu hit
    rcases addUnit_cases lvl oracle uid w with ⟨e, _, hadd⟩ | ⟨pv, _, hadd⟩
    · rw [iterAddUnit, hadd] at hit
      cases hit
    · rw [iterAddUnit, hadd] at hit
      have hst := addUnitOk_state lvl uid w pv
      obtain ⟨ha, hb, hg⟩ := iterAddUnit_of_ready lvl oracle uid n
        (addUnitOk lvl uid w pv) w' hst.1 hst.2.1 hst.2.2 hit
      have hfc := countEv_addUnitOk_first lvl uid w pv hu
      refine ⟨addUnitOk lvl uid w pv, hadd, ha, ?_, ?_, ?_⟩
      · rw [show w'.cache = (addUnitOk lvl uid w pv).cache from ha]
        exact hst.2.2
      · rw [hb, hfc.1]
      · rw [hg, hfc.2]
        omega

/-- The world after two per-unit accesses for the same unit. -/
def wUnit2 : World :=
  match iterAddUnit .session oracleVal "foo.service" 2 sessionWorld with
  | .ok w => w
  | .error _ => freshWorld

theorem ensure_accessors_idempotent_cx :
    (iterAddUnit .session oracleVal "foo.service" 2 sessionWorld).map
        (fun w => w.trace.length) = .ok 8
    ∧ (iterAddUnit .session oracleVal "foo.service" 1 sessionWorld).map
        (fun w => w.trace.length) = .ok 6
    ∧ (iterAddUnit .session oracleVal "foo.service" 2 sessionWorld).map
        (countEv (isCallOf "GetUnit")) = .ok 2
    ∧ (8 : Nat) ≠ 6 ∧ (2 : Nat) ≠ 1 :=
  ⟨rfl, rfl, rfl, by decide, by decide⟩

theorem ensure_accessors_idempotent_witness :
    ((add_systemd .session)^[2] sessionWorld = add_systemd .session sessionWorld)
    ∧ ((((add_systemd .session)^[2] sessionWorld).cache.get .session).systemd ≠ none
        ∧ countEv (isGetObj "org.freedesktop.systemd1" "/org/freedesktop/systemd1")
            ((add_systemd .session)^[2] sessionWorld)
          = countEv (isGetObj "org.freedesktop.systemd1" "/org/freedesktop/systemd1")
              sessionWorld + 1)
    ∧ (∃ w1, add_systemd_unit_properties .session oracleVal "foo.service" sessionWorld
          = .ok w1
        ∧ wUnit2.cache = w1.cache
        ∧ lookupUnit (wUnit2.cache.get .session) "foo.service" ≠ none
        ∧ countEv (isWrapOf "org.freedesktop.DBus.Properties") wUnit2
            = countEv (isWrapOf "org.freedesktop.DBus.Properties") sessionWorld + 1
        ∧ countEv (isCallOf "GetUnit") wUnit2
            = countEv (isCallOf "GetUnit") sessionWorld + 2) := by
  have h := ensure_accessors_idempotent .session sessionWorld 1
  exact ⟨h.1, h.2.2.2.2.2.1 rfl,
    h.2.2.2.2.2.2.2.2.2.2 oracleVal "foo.service" wUnit2 rfl rfl⟩

/-! ### Construction -/

/-- The level string the constructor accepts for each bus level. -/
def strOf : Level → String
  | .system => "system"
  | .session => "session"

lemma init_of_bus_some (lvl : Level) (w : World)
    (h : (w.cache.get lvl).bus ≠ none) :
    DbusInteractions_init (strOf lvl) w = .ok (lvl, w) := by
  cases lvl <;> simp [DbusInteractions_init, strOf, h]

lemma init_first (lvl : Level) (w : World)
    (h : (w.cache.get lvl).bus = none) :
    DbusInteractions_init (strOf lvl) w = .ok (lvl,
      { w with
          cache := w.cache.set lvl { w.cache.get lvl with bus := some w.counter },
          counter := w.counter + 1,
          trace := w.trace ++ [.connectBus lvl] }) := by
  cases lvl <;> simp [DbusInteractions_init, strOf, h, World.alloc, World.setLC]

lemma iterInit_of_some (lvl : Level) :
    ∀ (n : Nat) (w : World), (w.cache.get lvl).bus ≠ none →
      iterInit (strOf lvl) n w = .ok w := by
  intro n
  induction n with
  | zero => intro w _; rfl
  | succ k ih =>
    intro w h
    rw [iterInit, init_of_bus_some lvl w h]
    exact ih w h

/-- C3: construction validates the level string — it fails with the
`ValueError` message for anything outside `{system, session}` and
succeeds for those — and across arbitrarily many constructions for the
same level the connection is created and cached exactly once. -/
theorem construction_validation (s : String) (w : World) (n : Nat) :
    (s ≠ "system" → s ≠ "session" →
        DbusInteractions_init s w
          = .error ("dbus_level can be system or session, got " ++ s))
    ∧ (∀ lvl : Level, s = strOf lvl →
        ∃ w', DbusInteractions_init s w = .ok (lvl, w')
          ∧ (w'.cache.get lvl).bus ≠ none
          ∧ ((w.cache.get lvl).bus = none →
              countEv (isConnect lvl) w' = countEv (isConnect lvl) w + 1
              ∧ iterInit s (n + 1) w = .ok w'))
    ∧ (∀ lvl : Level, (w.cache.get lvl).bus ≠ none →
        iterInit (strOf lvl) (n + 1) w = .ok w) := by
  refine ⟨?_, ?_, fun lvl h => iterInit_of_some lvl (n + 1) w h⟩
  · intro h1 h2
    simp [DbusInteractions_init, h1, h2]
  · intro lvl hs
    subst hs
    by_cases hb : (w.cache.get lvl).bus = none
    · refine ⟨_, init_first lvl w hb, ?_, ?_⟩
      · simp
      · intro _
        constructor
        · simp [countEv, List.countP_append, List.countP_cons, isConnect]
        · rw [iterInit, init_first lvl w hb]
          exact iterInit_of_some lvl n _ (by simp)
    · refine ⟨w, init_of_bus_some lvl w hb, hb, fun h => absurd h hb⟩

theorem construction_validation_witness :
    DbusInteractions_init "bogus" freshWorld
      = .error ("dbus_level can be system or session, got " ++ "bogus")
    ∧ ∃ w', DbusInteractions_init "session" freshWorld = .ok (.session, w')
        ∧ (w'.cache.get .session).bus ≠ none
        ∧ (countEv (isConnect .session) w' = countEv (isConnect .session) freshWorld + 1
            ∧ iterInit "session" 2 freshWorld = .ok w') := by
  refine ⟨(construction_validation "bogus" freshWorld 0).1 (by decide) (by decide), ?_⟩
  obtain ⟨w', h1, h2, h3⟩ :=
    (construction_validation "session" freshWorld 1).2.1 .session rfl
  exact ⟨w', h1, h2, h3 rfl⟩

/-! ### Dependency order of the per-unit accessor -/

lemma manager_fresh_facts (lvl : Level) (w : World) (b : Nat)
    (hb : (w.cache.get lvl).bus = some b)
    (hs : (w.cache.get lvl).systemd = none)
    (hm : (w.cache.get lvl).systemd_manager = none) :
    ((add_systemd_manager lvl w).cache.get lvl).systemd = some w.counter
    ∧ ((add_systemd_manager lvl w).cache.get lvl).systemd_manager = some (w.counter + 1)
    ∧ ((add_systemd_manager lvl w).cache.get lvl).bus = some b
    ∧ ((add_systemd_manager lvl w).cache.get lvl).unit_properties
        = (w.cache.get lvl).unit_properties
    ∧ (add_systemd_manager lvl w).counter = w.counter + 2
    ∧ (add_systemd_manager lvl w).trace = w.trace
        ++ [.getObject b "org.freedesktop.systemd1" (.str "/org/freedesktop/systemd1"),
            .wrapInterface w.counter "org.freedesktop.systemd1.Manager"] := by
  have hm' : ((add_systemd lvl w).cache.get lvl).systemd_manager = none := by
    rw [(add_systemd_preserves lvl w).2.1]
    exact hm
  refine ⟨?_, ?_, ?_, ?_, ?_, ?_⟩ <;>
    simp [add_systemd_manager, add_systemd, hs, hm, hm', hb, World.alloc, World.setLC]

/-- C4: on a fresh cache, the per-unit accessor transitively creates its
prerequisites in dependency order — the manager root object, then the
manager interface, then the `GetUnit` lookup and per-unit resolution and
wrap: connection → object → interface → per-unit interface. -/
theorem unit_dependency_order (lvl : Level) (oracle : Oracle) (uid : String)
    (w : World) (b : Nat) (pv : DVal)
    (hb : (w.cache.get lvl).bus = some b)
    (hs : (w.cache.get lvl).systemd = none)
    (hm : (w.cache.get lvl).systemd_manager = none)
    (hu : (w.cache.get lvl).unit_properties = none)
    (ho : oracle (w.counter + 1) "GetUnit" [.str uid] = .ok pv) :
    ∃ w', add_systemd_unit_properties lvl oracle uid w = .ok w'
      ∧ w'.trace = w.trace ++
          [.getObject b "org.freedesktop.systemd1" (.str "/org/freedesktop/systemd1"),
           .wrapInterface w.counter "org.freedesktop.systemd1.Manager",
           .methodCall (w.counter + 1) "GetUnit" [.str uid],
           .getObject b "org.freedesktop.systemd1" pv,
           .wrapInterface (w.counter + 2) "org.freedesktop.DBus.Properties"]
      ∧ (w'.cache.get lvl).systemd = some w.counter
      ∧ (w'.cache.get lvl).systemd_manager = some (w.counter + 1)
      ∧ lookupUnit (w'.cache.get lvl) uid = some (w.counter + 3) := by
  have hf := manager_fresh_facts lvl w b hb hs hm
  have hlu : lookupUnit (w.cache.get lvl) uid = none := by
    simp [lookupUnit, hu]
  rcases addUnit_cases lvl oracle uid w with ⟨e, he, _⟩ | ⟨pv', ho', hadd⟩
  · rw [hf.2.1] at he
    simp only [Option.getD_some] at he
    rw [ho] at he
    cases he
  · have hpv : pv = pv' := by
      rw [hf.2.1] at ho'
      simp only [Option.getD_some] at ho'
      rw [ho] at ho'
      exact (Except.ok.injEq _ _).mp ho'
    subst hpv
    refine ⟨addUnitOk lvl uid w pv, hadd, ?_, ?_, ?_, ?_⟩
    · rw [addUnitOk_trace_of_absent lvl uid w pv hlu, hf.2.2.2.2.2, hf.2.1, hf.2.2.1,
        hf.2.2.2.2.1]
      simp
    · rw [addUnitOk_cache_get]
      have hup : ((add_systemd_manager lvl w).cache.get lvl).unit_properties = none := by
        rw [hf.2.2.2.1]
        exact hu
      simp [hup, lookupUnit, List.lookup, hf.1]
    · rw [addUnitOk_cache_get]
      have hup : ((add_systemd_manager lvl w).cache.get lvl).unit_properties = none := by
        rw [hf.2.2.2.1]
        exact hu
      simp [hup, lookupUnit, List.lookup, hf.2.1]
    · rw [addUnitOk_cache_get]
      have hup : ((add_systemd_manager lvl w).cache.get lvl).unit_properties = none := by
        rw [hf.2.2.2.1]
        exact hu
      simp [hup, lookupUnit, List.lookup, hf.2.2.2.2.1]

lemma addUnit_ok_inv {lvl : Level} {oracle : Oracle} {uid : String} {w w' : World}
    (h : add_systemd_unit_properties lvl oracle uid w = .ok w') :
    ∃ pv, w' = addUnitOk lvl uid w pv := by
  rcases addUnit_cases lvl oracle uid w with ⟨e, _, hadd⟩ | ⟨pv, _, hadd⟩
  · rw [h] at hadd
    cases hadd
  · rw [h] at hadd
    exact ⟨pv, (Except.ok.injEq _ _).mp hadd⟩

/-- A per-unit access never removes an existing per-unit entry. -/
lemma addUnitOk_lookup_mono (lvl : Level) (uid : String) (w : World) (pv : DVal)
    (u : String) (hu : lookupUnit (w.cache.get lvl) u ≠ none) :
    lookupUnit ((addUnitOk lvl uid w pv).cache.get lvl) u ≠ none := by
  rw [addUnitOk_cache_get]
  have hpres := (add_systemd_manager_preserves lvl w).2.2.1
  have hupne : (w.cache.get lvl).unit_properties ≠ none := lookupUnit_up_ne_none hu
  have hup' : ((add_systemd_manager lvl w).cache.get lvl).unit_properties ≠ none := by
    rw [hpres]
    exact hupne
  rcases hv : List.lookup u ((w.cache.get lvl).unit_properties.getD []) with _ | v
  · exact absurd (show lookupUnit (w.cache.get lvl) u = none by
      simp [lookupUnit, hv]) hu
  · have hv' : List.lookup u
        (((add_systemd_manager lvl w).cache.get lvl).unit_properties.getD [])
          = some v := by
      rw [hpres]
      exact hv
    simp only [hup', if_neg, ite_false]
    split
    · simp [lookupUnit, lookup_append_of_some hv']
    · simp [lookupUnit, hv']

/-- The worlds after accessing `a.service` once, twice, then `b.service`. -/
def wA : World :=
  match add_systemd_unit_properties .session oracleVal "a.service" sessionWorld with
  | .ok w => w
  | .error _ => freshWorld

def wB : World :=
  match add_systemd_unit_properties .session oracleVal "a.service" wA with
  | .ok w => w
  | .error _ => freshWorld

def wC : World :=
  match add_systemd_unit_properties .session oracleVal "b.service" wB with
  | .ok w => w
  | .error _ => freshWorld

/-- C6: per-unit wrappers are cached per unit id — a second access for
the same unit id returns the identical cached wrapper, while accesses
for two different unit ids yield two entries; concretely the wrappers
for `a.service` and `b.service` are the distinct handles 4 and 7. -/
theorem per_unit_wrapper_identity :
    (∀ (lvl : Level) (oracle : Oracle) (uid : String) (w w1 w2 : World),
        add_systemd_unit_properties lvl oracle uid w = .ok w1 →
        add_systemd_unit_properties lvl oracle uid w1 = .ok w2 →
        lookupUnit (w2.cache.get lvl) uid = lookupUnit (w1.cache.get lvl) uid
        ∧ lookupUnit (w1.cache.get lvl) uid ≠ none)
    ∧ (∀ (lvl : Level) (oracle : Oracle) (uid1 uid2 : String) (w w1 w2 : World),
        add_systemd_unit_properties lvl oracle uid1 w = .ok w1 →
        add_systemd_unit_properties lvl oracle uid2 w1 = .ok w2 →
        lookupUnit (w2.cache.get lvl) uid1 ≠ none
        ∧ lookupUnit (w2.cache.get lvl) uid2 ≠ none)
    ∧ (add_systemd_unit_properties .session oracleVal "a.service" sessionWorld = .ok wA
        ∧ add_systemd_unit_properties .session oracleVal "a.service" wA = .ok wB
        ∧ add_systemd_unit_properties .session oracleVal "b.service" wB = .ok wC
        ∧ lookupUnit (wB.cache.get .session) "a.service"
            = lookupUnit (wA.cache.get .session) "a.service"
        ∧ lookupUnit (wC.cache.get .session) "a.service" = some 4
        ∧ lookupUnit (wC.cache.get .session) "b.service" = some 7
        ∧ (4 : Nat) ≠ 7) := by
  refine ⟨?_, ?_, rfl, rfl, rfl, rfl, rfl, rfl, by decide⟩
  · intro lvl oracle uid w w1 w2 h1 h2
    obtain ⟨pv1, rfl⟩ := addUnit_ok_inv h1
    have hst := addUnitOk_state lvl uid w pv1
    obtain ⟨pv2, rfl⟩ := addUnit_ok_inv h2
    rw [addUnitOk_of_ready lvl uid _ pv2 hst.1 hst.2.1 hst.2.2]
    exact ⟨rfl, hst.2.2⟩
  · intro lvl oracle uid1 uid2 w w1 w2 h1 h2
    obtain ⟨pv1, rfl⟩ := addUnit_ok_inv h1
    have hst1 := addUnitOk_state lvl uid1 w pv1
    obtain ⟨pv2, rfl⟩ := addUnit_ok_inv h2
    have hst2 := addUnitOk_state lvl uid2 (addUnitOk lvl uid1 w pv1) pv2
    exact ⟨addUnitOk_lookup_mono lvl uid2 (addUnitOk lvl uid1 w pv1) pv2 uid1 hst1.2.2,
      hst2.2.2⟩

theorem per_unit_wrapper_identity_witness :
    lookupUnit (wB.cache.get .session) "a.service"
        = lookupUnit (wA.cache.get .session) "a.service"
    ∧ lookupUnit (wA.cache.get .session) "a.service" ≠ none :=
  per_unit_wrapper_identity.1 .session oracleVal "a.service" sessionWorld wA wB rfl rfl

/-! ### Level isolation: every operation commutes with writes to the
other level's sub-cache and leaves that sub-cache unchanged. -/

lemma setLC_counter (w : World) (l : Level) (lc : LevelCache) :
    (w.setLC l lc).counter = w.counter := rfl

lemma setLC_trace (w : World) (l : Level) (lc : LevelCache) :
    (w.setLC l lc).trace = w.trace := rfl

lemma setLC_emit (w : World) (l : Level) (lc : LevelCache) (e : Event) :
    (w.setLC l lc).emit e = (w.emit e).setLC l lc := by
  simp [World.setLC, World.emit]

lemma setLC_alloc_fst (w : World) (l : Level) (lc : LevelCache) (e : Event) :
    ((w.setLC l lc).alloc e).1 = (w.alloc e).1 := rfl

lemma setLC_alloc_snd (w : World) (l : Level) (lc : LevelCache) (e : Event) :
    ((w.setLC l lc).alloc e).2 = ((w.alloc e).2).setLC l lc := by
  simp [World.setLC, World.alloc]

lemma setLC_other_cache_get (w : World) (lvl : Level) (lc : LevelCache) :
    ((w.setLC lvl.other lc).cache.get lvl) = w.cache.get lvl := by
  simp [World.setLC]

lemma setLC_setLC_other (w : World) (lvl : Level) (lc lc' : LevelCache) :
    (w.setLC lvl.other lc').setLC lvl lc = (w.setLC lvl lc).setLC lvl.other lc' := by
  simp [World.setLC, Cache.set_other_comm]

lemma setLC_get_self (w : World) (lvl : Level) :
    w.setLC lvl (w.cache.get lvl) = w := by
  simp [World.setLC]

lemma add_systemd_commute (lvl : Level) (w : World) (lc' : LevelCache) :
    add_systemd lvl (w.setLC lvl.other lc') = (add_systemd lvl w).setLC lvl.other lc' := by
  by_cases h : (w.cache.get lvl).systemd = none <;>
    simp [add_systemd, h, setLC_counter, setLC_trace, setLC_emit, setLC_alloc_fst,
      setLC_alloc_snd, setLC_other_cache_get, setLC_setLC_other]

lemma add_systemd_manager_commute (lvl : Level) (w : World) (lc' : LevelCache) :
    add_systemd_manager lvl (w.setLC lvl.other lc')
      = (add_systemd_manager lvl w).setLC lvl.other lc' := by
  by_cases h : ((add_systemd lvl w).cache.get lvl).systemd_manager = none <;>
    simp [add_systemd_manager, add_systemd_commute, h, setLC_counter, setLC_trace,
      setLC_emit, setLC_alloc_fst, setLC_alloc_snd, setLC_other_cache_get,
      setLC_setLC_other]

lemma add_systemd_properties_commute (lvl : Level) (w : World) (lc' : LevelCache) :
    add_systemd_properties lvl (w.setLC lvl.other lc')
      = (add_systemd_properties lvl w).setLC lvl.other lc' := by
  by_cases h : ((add_systemd lvl w).cache.get lvl).systemd_properties = none <;>
    simp [add_systemd_properties, add_systemd_commute, h, setLC_counter, setLC_trace,
      setLC_emit, setLC_alloc_fst, setLC_alloc_snd, setLC_other_cache_get,
      setLC_setLC_other]

lemma add_dbus_commute (lvl : Level) (w : World) (lc' : LevelCache) :
    add_dbus lvl (w.setLC lvl.other lc') = (add_dbus lvl w).setLC lvl.other lc' := by
  by_cases h : (w.cache.get lvl).dbus = none <;>
    simp [add_dbus, h, setLC_counter, setLC_trace, setLC_emit, setLC_alloc_fst,
      setLC_alloc_snd, setLC_other_cache_get, setLC_setLC_other]

lemma add_dbus_interface_commute (lvl : Level) (w : World) (lc' : LevelCache) :
    add_dbus_interface lvl (w.setLC lvl.other lc')
      = (add_dbus_interface lvl w).setLC lvl.other lc' := by
  by_cases h : ((add_dbus lvl w).cache.get lvl).dbus_interface = none <;>
    simp [add_dbus_interface, add_dbus_commute, h, setLC_counter, setLC_trace,
      setLC_emit, setLC_alloc_fst, setLC_alloc_snd, setLC_other_cache_get,
      setLC_setLC_other]

lemma addUnitOk_commute (lvl : Level) (uid : String) (w : World) (pv : DVal)
    (lc' : LevelCache) :
    addUnitOk lvl uid (w.setLC lvl.other lc') pv
      = (addUnitOk lvl uid w pv).setLC lvl.other lc' := by
  simp only [addUnitOk, add_systemd_manager_commute, setLC_counter, setLC_trace,
    setLC_emit, setLC_alloc_fst, setLC_alloc_snd, setLC_other_cache_get,
    setLC_setLC_other]
  split <;> split <;> simp [setLC_other_cache_get]

lemma addUnit_mgr_cache (lvl : Level) (w : World) (lc' : LevelCache) :
    (add_systemd_manager lvl (w.setLC lvl.other lc')).cache.get lvl
      = (add_systemd_manager lvl w).cache.get lvl := by
  rw [add_systemd_manager_commute, setLC_other_cache_get]

lemma addUnit_commute (lvl : Level) (oracle : Oracle) (uid : String) (w : World)
    (lc' : LevelCache) :
    add_systemd_unit_properties lvl oracle uid (w.setLC lvl.other lc')
      = (add_systemd_unit_properties lvl oracle uid w).map
          (fun r => r.setLC lvl.other lc') := by
  rcases addUnit_cases lvl oracle uid w with ⟨e, ho, hadd⟩ | ⟨pv, ho, hadd⟩ <;>
    rcases addUnit_cases lvl oracle uid (w.setLC lvl.other lc')
      with ⟨e2, ho2, hadd2⟩ | ⟨pv2, ho2, hadd2⟩ <;>
    rw [addUnit_mgr_cache lvl w lc'] at ho2 <;>
    rw [ho] at ho2
  · cases ho2
    rw [hadd, hadd2]
    rfl
  · cases ho2
  · cases ho2
  · cases ho2
    rw [hadd, hadd2, addUnitOk_commute]
    rfl

lemma callOp_commute (oracle : Oracle) (t : Nat) (m : String) (a : List DVal)
    (w : World) (l : Level) (lc : LevelCache) :
    callOp oracle t m a (w.setLC l lc)
      = (callOp oracle t m a w).map (fun r => (r.1, r.2.setLC l lc)) := by
  unfold callOp
  cases oracle t m a <;> simp [setLC_emit, Except.map]

lemma map_snd_setLC (x : Except String (DVal × World)) (l : Level) (lc : LevelCache) :
    (x.map (fun r => (r.1, r.2.setLC l lc))).map (fun r => r.2)
      = (x.map (fun r => r.2)).map (fun r => r.setLC l lc) := by
  cases x <;> rfl

lemma reload_commute (lvl : Level) (oracle : Oracle) (w : World) (lc' : LevelCache) :
    reload_systemd lvl oracle (w.setLC lvl.other lc')
      = (reload_systemd lvl oracle w).map (fun r => (r.1, r.2.setLC lvl.other lc')) := by
  simp only [reload_systemd, add_systemd_manager_commute, setLC_other_cache_get,
    callOp_commute]

lemma list_jobs_commute (lvl : Level) (oracle : Oracle) (w : World) (lc' : LevelCache) :
    list_systemd_jobs lvl oracle (w.setLC lvl.other lc')
      = (list_systemd_jobs lvl oracle w).map (fun r => (r.1, r.2.setLC lvl.other lc')) := by
  simp only [list_systemd_jobs, add_systemd_manager_commute, setLC_other_cache_get,
    callOp_commute]

lemma list_units_commute (lvl : Level) (oracle : Oracle) (states pats : List String)
    (w : World) (lc' : LevelCache) :
    list_units_by_patterns lvl oracle states pats (w.setLC lvl.other lc')
      = (list_units_by_patterns lvl oracle states pats w).map
          (fun r => (r.1, r.2.setLC lvl.other lc')) := by
  simp only [list_units_by_patterns, add_systemd_manager_commute, setLC_other_cache_get,
    callOp_commute]

lemma stop_unit_commute (lvl : Level) (oracle : Oracle) (unit mode : String)
    (w : World) (lc' : LevelCache) :
    stop_unit lvl oracle unit mode (w.setLC lvl.other lc')
      = (stop_unit lvl oracle unit mode w).map (fun r => (r.1, r.2.setLC lvl.other lc')) := by
  simp only [stop_unit, add_systemd_manager_commute, setLC_other_cache_get, callOp_commute]

lemma set_systemd_vars_commute (lvl : Level) (oracle : Oracle)
    (vars : List (String × String)) (w : World) (lc' : LevelCache) :
    set_systemd_vars lvl oracle vars (w.setLC lvl.other lc')
      = (set_systemd_vars lvl oracle vars w).map (fun r => r.setLC lvl.other lc') := by
  simp only [set_systemd_vars, add_systemd_manager_commute, setLC_other_cache_get,
    callOp_commute, map_snd_setLC]

lemma unset_systemd_vars_commute (lvl : Level) (oracle : Oracle)
    (names : List String) (w : World) (lc' : LevelCache) :
    unset_systemd_vars lvl oracle names (w.setLC lvl.other lc')
      = (unset_systemd_vars lvl oracle names w).map (fun r => r.setLC lvl.other lc') := by
  simp only [unset_systemd_vars, add_systemd_manager_commute, setLC_other_cache_get,
    callOp_commute, map_snd_setLC]

lemma set_dbus_vars_commute (lvl : Level) (oracle : Oracle)
    (vars : List (String × String)) (w : World) (lc' : LevelCache) :
    set_dbus_vars lvl oracle vars (w.setLC lvl.other lc')
      = (set_dbus_vars lvl oracle vars w).map (fun r => r.setLC lvl.other lc') := by
  simp only [set_dbus_vars, add_dbus_interface_commute, setLC_other_cache_get,
    callOp_commute, map_snd_setLC]

lemma get_systemd_vars_commute (lvl : Level) (oracle : Oracle) (w : World)
    (lc' : LevelCache) :
    get_systemd_vars lvl oracle (w.setLC lvl.other lc')
      = (get_systemd_vars lvl oracle w).map (fun r => (r.1, r.2.setLC lvl.other lc')) := by
  simp only [get_systemd_vars, add_systemd_properties_commute, setLC_other_cache_get,
    callOp_commute]
  rcases hc : callOp oracle
      (((add_systemd_properties lvl w).cache.get lvl).systemd_properties.getD 0) "Get"
      [.str "org.freedesktop.systemd1.Manager", .str "Environment"]
      (add_systemd_properties lvl w) with e | r
  · simp [Except.map]
  · rcases hp : parseEnv [] r.1.toStrList with e | env <;> simp [hp, Except.map]

lemma get_unit_property_commute (lvl : Level) (oracle : Oracle) (uid prop : String)
    (w : World) (lc' : LevelCache) :
    get_unit_property lvl oracle uid prop (w.setLC lvl.other lc')
      = (get_unit_property lvl oracle uid prop w).map
          (fun r => (r.1, r.2.setLC lvl.other lc')) := by
  simp only [get_unit_property, addUnit_commute]
  rcases h : add_systemd_unit_properties lvl oracle uid w with e | w1
  · simp [Except.map]
  · simp [Except.map, setLC_other_cache_get, callOp_commute]

lemma init_commute (lvl : Level) (w : World) (lc' : LevelCache) :
    DbusInteractions_init (strOf lvl) (w.setLC lvl.other lc')
      = (DbusInteractions_init (strOf lvl) w).map
          (fun r => (r.1, r.2.setLC lvl.other lc')) := by
  by_cases hb : (w.cache.get lvl).bus = none
  · rw [init_first lvl w hb,
      init_first lvl (w.setLC lvl.other lc') (by rw [setLC_other_cache_get]; exact hb)]
    simp [Except.map, World.setLC, Cache.set_other_comm]
  · rw [init_of_bus_some lvl w hb,
      init_of_bus_some lvl (w.setLC lvl.other lc')
        (by rw [setLC_other_cache_get]; exact hb)]
    rfl

lemma frame_of_fix {w' : World} {lvl : Level} {lc : LevelCache}
    (h : w' = w'.setLC lvl.other lc) : w'.cache.get lvl.other = lc := by
  conv_lhs => rw [h]
  simp [World.setLC]

lemma frame_of_commute {f : World → World} (lvl : Level) (w : World)
    (h : f (w.setLC lvl.other (w.cache.get lvl.other))
      = (f w).setLC lvl.other (w.cache.get lvl.other)) :
    (f w).cache.get lvl.other = w.cache.get lvl.other := by
  rw [setLC_get_self] at h
  exact frame_of_fix h

/-- C10: level isolation — construction, every ensure accessor and every
public operation of an instance at level L commutes with any write to the
other level's sub-cache (it reads only L's sub-mapping) and leaves the
other level's sub-cache unchanged (it writes only L's sub-mapping). -/
theorem level_isolation (lvl : Level) (oracle : Oracle) (w : World) (lc' : LevelCache)
    (uid prop mode : String) (vars : List (String × String))
    (names states pats : List String) :
    (DbusInteractions_init (strOf lvl) (w.setLC lvl.other lc')
        = (DbusInteractions_init (strOf lvl) w).map
            (fun r => (r.1, r.2.setLC lvl.other lc')))
    ∧ (∀ lvl' w', DbusInteractions_init (strOf lvl) w = .ok (lvl', w') →
        w'.cache.get lvl.other = w.cache.get lvl.other)
    ∧ (add_systemd lvl (w.setLC lvl.other lc') = (add_systemd lvl w).setLC lvl.other lc'
        ∧ (add_systemd lvl w).cache.get lvl.other = w.cache.get lvl.other)
    ∧ (add_systemd_manager lvl (w.setLC lvl.other lc')
          = (add_systemd_manager lvl w).setLC lvl.other lc'
        ∧ (add_systemd_manager lvl w).cache.get lvl.other = w.cache.get lvl.other)
    ∧ (add_systemd_properties lvl (w.setLC lvl.other lc')
          = (add_systemd_properties lvl w).setLC lvl.other lc'
        ∧ (add_systemd_properties lvl w).cache.get lvl.other = w.cache.get lvl.other)
    ∧ (add_dbus lvl (w.setLC lvl.other lc') = (add_dbus lvl w).setLC lvl.other lc'
        ∧ (add_dbus lvl w).cache.get lvl.other = w.cache.get lvl.other)
    ∧ (add_dbus_interface lvl (w.setLC lvl.other lc')
          = (add_dbus_interface lvl w).setLC lvl.other lc'
        ∧ (add_dbus_interface lvl w).cache.get lvl.other = w.cache.get lvl.other)
    ∧ (add_systemd_unit_properties lvl oracle uid (w.setLC lvl.other lc')
          = (add_systemd_unit_properties lvl oracle uid w).map
              (fun r => r.setLC lvl.other lc')
        ∧ ∀ w', add_systemd_unit_properties lvl oracle uid w = .ok w' →
            w'.cache.get lvl.other = w.cache.get lvl.other)
    ∧ (get_unit_property lvl oracle uid prop (w.setLC lvl.other lc')
          = (get_unit_property lvl oracle uid prop w).map
              (fun r => (r.1, r.2.setLC lvl.other lc'))
        ∧ ∀ v w', get_unit_property lvl oracle uid prop w = .ok (v, w') →
            w'.cache.get lvl.other = w.cache.get lvl.other)
    ∧ (reload_systemd lvl oracle (w.setLC lvl.other lc')
          = (reload_systemd lvl oracle w).map (fun r => (r.1, r.2.setLC lvl.other lc'))
        ∧ ∀ v w', reload_systemd lvl oracle w = .ok (v, w') →
            w'.cache.get lvl.other = w.cache.get lvl.other)
    ∧ (list_systemd_jobs lvl oracle (w.setLC lvl.other lc')
          = (list_systemd_jobs lvl oracle w).map (fun r => (r.1, r.2.setLC lvl.other lc'))
        ∧ ∀ v w', list_systemd_jobs lvl oracle w = .ok (v, w') →
            w'.cache.get lvl.other = w.cache.get lvl.other)
    ∧ (set_dbus_vars lvl oracle vars (w.setLC lvl.other lc')
          = (set_dbus_vars lvl oracle vars w).map (fun r => r.setLC lvl.other lc')
        ∧ ∀ w', set_dbus_vars lvl oracle vars w = .ok w' →
            w'.cache.get lvl.other = w.cache.get lvl.other)
    ∧ (set_systemd_vars lvl oracle vars (w.setLC lvl.other lc')
          = (set_systemd_vars lvl oracle vars w).map (fun r => r.setLC lvl.other lc')
        ∧ ∀ w', set_systemd_vars lvl oracle vars w = .ok w' →
            w'.cache.get lvl.other = w.cache.get lvl.other)
    ∧ (unset_systemd_vars lvl oracle names (w.setLC lvl.other lc')
          = (unset_systemd_vars lvl oracle names w).map (fun r => r.setLC lvl.other lc')
        ∧ ∀ w', unset_systemd_vars lvl oracle names w = .ok w' →
            w'.cache.get lvl.other = w.cache.get lvl.other)
    ∧ (get_systemd_vars lvl oracle (w.setLC lvl.other lc')
          = (get_systemd_vars lvl oracle w).map (fun r => (r.1, r.2.setLC lvl.other lc'))
        ∧ ∀ v w', get_systemd_vars lvl oracle w = .ok (v, w') →
            w'.cache.get lvl.other = w.cache.get lvl.other)
    ∧ (list_units_by_patterns lvl oracle states pats (w.setLC lvl.other lc')
          = (list_units_by_patterns lvl oracle states pats w).map
              (fun r => (r.1, r.2.setLC lvl.other lc'))
        ∧ ∀ v w', list_units_by_patterns lvl oracle states pats w = .ok (v, w') →
            w'.cache.get lvl.other = w.cache.get lvl.other)
    ∧ (stop_unit lvl oracle uid mode (w.setLC lvl.other lc')
          = (stop_unit lvl oracle uid mode w).map (fun r => (r.1, r.2.setLC lvl.other lc'))
        ∧ ∀ v w', stop_unit lvl oracle uid mode w = .ok (v, w') →
            w'.cache.get lvl.other = w.cache.get lvl.other) := by
  refine ⟨init_commute lvl w lc', ?_,
    ⟨add_systemd_commute lvl w lc', frame_of_commute lvl w (add_systemd_commute lvl w _)⟩,
    ⟨add_systemd_manager_commute lvl w lc',
      frame_of_commute lvl w (add_systemd_manager_commute lvl w _)⟩,
    ⟨add_systemd_properties_commute lvl w lc',
      frame_of_commute lvl w (add_systemd_properties_commute lvl w _)⟩,
    ⟨add_dbus_commute lvl w lc', frame_of_commute lvl w (add_dbus_commute lvl w _)⟩,
    ⟨add_dbus_interface_commute lvl w lc',
      frame_of_commute lvl w (add_dbus_interface_commute lvl w _)⟩,
    ⟨addUnit_commute lvl oracle uid w lc', ?_⟩,
    ⟨get_unit_property_commute lvl oracle uid prop w lc', ?_⟩,
    ⟨reload_commute lvl oracle w lc', ?_⟩,
    ⟨list_jobs_commute lvl oracle w lc', ?_⟩,
    ⟨set_dbus_vars_commute lvl oracle vars w lc', ?_⟩,
    ⟨set_systemd_vars_commute lvl oracle vars w lc', ?_⟩,
    ⟨unset_systemd_vars_commute lvl oracle names w lc', ?_⟩,
    ⟨get_systemd_vars_commute lvl oracle w lc', ?_⟩,
    ⟨list_units_commute lvl oracle states pats w lc', ?_⟩,
    ⟨stop_unit_commute lvl oracle uid mode w lc', ?_⟩⟩
  · intro lvl' w' hw
    have hcom := init_commute lvl w (w.cache.get lvl.other)
    rw [setLC_get_self, hw] at hcom
    simp [Except.map] at hcom
    exact frame_of_fix hcom
  · intro w' hw
    have hcom := addUnit_commute lvl oracle uid w (w.cache.get lvl.other)
    rw [setLC_get_self, hw] at hcom
    simp [Except.map] at hcom
    exact frame_of_fix hcom
  · intro v w' hw
    have hcom := get_unit_property_commute lvl oracle uid prop w (w.cache.get lvl.other)
    rw [setLC_get_self, hw] at hcom
    simp [Except.map] at hcom
    exact frame_of_fix hcom
  · intro v w' hw
    have hcom := reload_commute lvl oracle w (w.cache.get lvl.other)
    rw [setLC_get_self, hw] at hcom
    simp [Except.map] at hcom
    exact frame_of_fix hcom
  · intro v w' hw
    have hcom := list_jobs_commute lvl oracle w (w.cache.get lvl.other)
    rw [setLC_get_self, hw] at hcom
    simp [Except.map] at hcom
    exact frame_of_fix hcom
  · intro w' hw
    have hcom := set_dbus_vars_commute lvl oracle vars w (w.cache.get lvl.other)
    rw [setLC_get_self, hw] at hcom
    simp [Except.map] at hcom
    exact frame_of_fix hcom
  · intro w' hw
    have hcom := set_systemd_vars_commute lvl oracle vars w (w.cache.get lvl.other)
    rw [setLC_get_self, hw] at hcom
    simp [Except.map] at hcom
    exact frame_of_fix hcom
  · intro w' hw
    have hcom := unset_systemd_vars_commute lvl oracle names w (w.cache.get lvl.other)
    rw [setLC_get_self, hw] at hcom
    simp [Except.map] at hcom
    exact frame_of_fix hcom
  · intro v w' hw
    have hcom := get_systemd_vars_commute lvl oracle w (w.cache.get lvl.other)
    rw [setLC_get_self, hw] at hcom
    simp [Except.map] at hcom
    exact frame_of_fix hcom
  · intro v w' hw
    have hcom := list_units_commute lvl oracle states pats w (w.cache.get lvl.other)
    rw [setLC_get_self, hw] at hcom
    simp [Except.map] at hcom
    exact frame_of_fix hcom
  · intro v w' hw
    have hcom := stop_unit_commute lvl oracle uid mode w (w.cache.get lvl.other)
    rw [setLC_get_self, hw] at hcom
    simp [Except.map] at hcom
    exact frame_of_fix hcom

theorem level_isolation_witness :
    (add_systemd .session (sessionWorld.setLC Level.session.other emptyLC)
        = (add_systemd .session sessionWorld).setLC Level.session.other emptyLC)
    ∧ wA.cache.get Level.session.other = sessionWorld.cache.get Level.session.other := by
  have h := level_isolation .session oracleVal sessionWorld emptyLC
    "a.service" "ActiveState" "fail" [] [] [] []
  exact ⟨h.2.2.1.1, h.2.2.2.2.2.2.2.1.2 wA rfl⟩

theorem unit_dependency_order_witness :
    ∃ w', add_systemd_unit_properties .session oracleVal "foo.service" sessionWorld
        = .ok w'
      ∧ w'.trace = sessionWorld.trace ++
          [.getObject 0 "org.freedesktop.systemd1" (.str "/org/freedesktop/systemd1"),
           .wrapInterface 1 "org.freedesktop.systemd1.Manager",
           .methodCall 2 "GetUnit" [.str "foo.service"],
           .getObject 0 "org.freedesktop.systemd1" (.str "/job/1"),
           .wrapInterface 3 "org.freedesktop.DBus.Properties"]
      ∧ (w'.cache.get .session).systemd = some 1
      ∧ (w'.cache.get .session).systemd_manager = some 2
      ∧ lookupUnit (w'.cache.get .session) "foo.service" = some 4 :=
  unit_dependency_order .session oracleVal "foo.service" sessionWorld 0
    (.str "/job/1") rfl rfl rfl rfl rfl

end Uwsm
